import Mathlib

/-!
Shallow embedding of the InsightFlow upload-analysis worker
(`backend/worker.py`, function `process_uploaded_file` and its helpers).

Modelling conventions:
* pandas cells are `Cell` (a rational number, a string, an integer timestamp,
  or a missing value `NaN`/`NaT`); a DataFrame is a header (column name and
  dtype) plus row-major cells.  Files read through `pd.read_csv` /
  `pd.read_excel` only ever produce numeric, datetime or object dtypes
  (bool and int columns satisfy `is_numeric_dtype`), which is what `Dtype`
  enumerates.
* machine floats are modelled as `ℚ`; timestamps as `ℤ`.
* external effects (the Supabase store, the Arq context, the sentiment
  neural network, the TF-IDF vectorizer internals and the daily
  resample/pivot/join performed by pandas on the market-trends query) are
  inputs of the job environment `Env`; everything the worker itself computes
  with them is embedded.
-/

namespace Insightflow

/-- Keep the elements not seen before, accumulating the seen ones. -/
def dedupFirstAux {α : Type} [DecidableEq α] (seen : List α) :
    List α → List α
  | [] => []
  | x :: xs =>
      if x ∈ seen then dedupFirstAux seen xs
      else x :: dedupFirstAux (x :: seen) xs

/-- Generic first-occurrence deduplication; the embedding of
`DataFrame.drop_duplicates` (pandas keeps the first occurrence and treats
missing values as equal to each other, as `DecidableEq` on `Cell` does). -/
def dedupFirst {α : Type} [DecidableEq α] (l : List α) : List α :=
  dedupFirstAux [] l

/-- Insert into a ≤-sorted list of rationals. -/
def insertSorted (q : ℚ) : List ℚ → List ℚ
  | [] => [q]
  | x :: xs => if q ≤ x then q :: x :: xs else x :: insertSorted q xs

/-- Insertion sort for rationals (ascending). -/
def sortQ : List ℚ → List ℚ
  | [] => []
  | x :: xs => insertSorted x (sortQ xs)

/-- Linear-interpolation quantile of an ascending-sorted list, exactly the
`numpy`/pandas default used by `Series.describe` and `Series.median`. -/
def quantileQ (sorted : List ℚ) (p : ℚ) : ℚ :=
  let n := sorted.length
  let pos := p * ((n : ℚ) - 1)
  let i := (⌊pos⌋).toNat
  let f := pos - (i : ℚ)
  (1 - f) * sorted.getD i 0 + f * sorted.getD (i + 1) (sorted.getD i 0)

/-- `Series.median`: skip missing values (done by the caller), sort, take the
middle element or the mean of the two middle elements. -/
def medianQ (xs : List ℚ) : ℚ :=
  quantileQ (sortQ xs) (1 / 2)

/-- A pandas cell: float/int value, string value, timestamp, or missing. -/
inductive Cell
  | num (q : ℚ)
  | str (s : String)
  | dt (t : ℤ)
  | missing
deriving DecidableEq, Repr

/-- The dtypes a frame read by `pd.read_csv` / `pd.read_excel` can carry:
`is_numeric_dtype` (ints, floats, bools), `is_datetime64_any_dtype`, or the
object dtype (`is_string_dtype or is_object_dtype` in the worker). -/
inductive Dtype
  | numeric
  | datetime
  | obj
deriving DecidableEq, Repr

/-- Row-major DataFrame: header of (column name, dtype) plus rows. -/
structure DF where
  header : List (String × Dtype)
  rows : List (List Cell)
deriving DecidableEq, Repr

/-- `df.empty`: true when either axis has length zero. -/
def DF.isEmptyDF (df : DF) : Bool :=
  df.rows.isEmpty || df.header.isEmpty

/-- Default header entry used with `List.getD`. -/
def dummyHd : String × Dtype := ("", Dtype.obj)

/-- The cells of column `j`, in row order. -/
def colCells (rows : List (List Cell)) (j : ℕ) : List Cell :=
  rows.map (fun r => r.getD j Cell.missing)

/-- The non-missing cells of a column (pandas skips `NaN` in `median`,
`mode`, `nunique` and `value_counts`). -/
def nonMissingCells (cells : List Cell) : List Cell :=
  cells.filter (fun c => c ≠ Cell.missing)

/-- The numeric values of a column. -/
def numsOf (cells : List Cell) : List ℚ :=
  cells.filterMap (fun c => match c with | Cell.num q => some q | _ => none)

/-- The timestamp values of a column. -/
def dtsOf (cells : List Cell) : List ℤ :=
  cells.filterMap (fun c => match c with | Cell.dt t => some t | _ => none)

/-- Occurrence count of a value in a column. -/
def countOcc (x : Cell) (xs : List Cell) : ℕ :=
  (xs.filter (fun y => y = x)).length

/-- Insert into a count-descending list, after existing entries of equal
count (so the sort is stable: first-seen values come first among ties;
pandas leaves the tie order of `value_counts` unspecified). -/
def insertByCount (p : Cell × ℕ) : List (Cell × ℕ) → List (Cell × ℕ)
  | [] => [p]
  | q :: qs => if q.2 < p.2 then p :: q :: qs else q :: insertByCount p qs

/-- Sort (value, count) pairs by descending count. -/
def sortByCountDesc : List (Cell × ℕ) → List (Cell × ℕ)
  | [] => []
  | p :: ps => insertByCount p (sortByCountDesc ps)

/-- `Series.value_counts()`: distinct non-missing values with their counts,
most frequent first. -/
def valueCounts (cells : List Cell) : List (Cell × ℕ) :=
  sortByCountDesc ((dedupFirst (nonMissingCells cells)).map
    (fun v => (v, countOcc v (nonMissingCells cells))))

/-- `value_counts().idxmax()` respectively `Series.mode()[0]`: a value of
maximal count, `none` when every cell is missing.  (The two pandas calls
break ties differently - `mode` sorts the values, `idxmax` takes the first
row of `value_counts` - no claim depends on the tie order, so both are
modelled as the head of `valueCounts`.) -/
def modeCell (cells : List Cell) : Option Cell :=
  (valueCounts cells).head?.map (fun p => p.1)

/-- Imputation value of one column (`worker.py` lines 166-176): median for
numeric columns (`fillna` with a `NaN` median is a no-op, hence `none` for an
all-missing column), mode or the literal "Unknown" for object columns,
nothing for datetime columns (the worker has no branch for them). -/
def fillValue (dt : Dtype) (cells : List Cell) : Option Cell :=
  match dt with
  | Dtype.numeric =>
      let ns := numsOf cells
      if ns.isEmpty then none else some (Cell.num (medianQ ns))
  | Dtype.obj =>
      some ((modeCell cells).getD (Cell.str "Unknown"))
  | Dtype.datetime => none

/-- Per-column imputation values for a whole frame. -/
def fillsOf (header : List (String × Dtype)) (rows : List (List Cell)) :
    List (Option Cell) :=
  (List.range header.length).map
    (fun j => fillValue (header.getD j dummyHd).2 (colCells rows j))

/-- Replace the missing cells of one row by the column imputation values. -/
def imputeRow (fills : List (Option Cell)) (r : List Cell) : List Cell :=
  List.zipWith
    (fun f c => if c = Cell.missing then f.getD Cell.missing else c) fills r

/-- The Data Cleaner (`worker.py` lines 158-177): drop duplicate rows first,
then impute missing values column by column on the deduplicated frame. -/
def clean (df : DF) : DF :=
  let d := dedupFirst df.rows
  { header := df.header,
    rows := d.map (imputeRow (fillsOf df.header d)) }

/-- Minimum of a list of integers, `none` when empty. -/
def minInt : List ℤ → Option ℤ
  | [] => none
  | t :: ts => some (ts.foldl min t)

/-- Maximum of a list of integers, `none` when empty. -/
def maxInt : List ℤ → Option ℤ
  | [] => none
  | t :: ts => some (ts.foldl max t)

/-- Rendering of a timestamp, standing in for `Timestamp.isoformat()` (the
actual ISO-8601 text is irrelevant to every claim). -/
def tsIso (t : ℤ) : String :=
  "ts-" ++ toString t

/-- One entry of `summary_statistics` (`worker.py` lines 181-219).  The
`describe()` standard deviation is the square root of the sample variance -
irrational in general and referenced by no claim - so it is the one numeric
field not carried. -/
structure ColProfile where
  type : String
  detail : Option String := none
  mean : Option ℚ := none
  median : Option ℚ := none
  minQ : Option ℚ := none
  maxQ : Option ℚ := none
  q25 : Option ℚ := none
  q75 : Option ℚ := none
  uniqueCount : Option ℕ := none
  modeVal : Option Cell := none
  frequencies : List (Cell × ℕ) := []
  dtMin : Option String := none
  dtMax : Option String := none
deriving DecidableEq, Repr

/-- Profile of one column (`worker.py` lines 183-215): numeric dtype first,
then datetime, then object columns split into categorical and free text by
the `unique/len < 0.5 and unique < 1000` heuristic. -/
def profileColumn (nRows : ℕ) (dt : Dtype) (cells : List Cell) : ColProfile :=
  match dt with
  | Dtype.numeric =>
      let ns := numsOf cells
      let s := sortQ ns
      if ns.isEmpty then
        { type := "numerical" }
      else
        { type := "numerical",
          mean := some (ns.sum / (ns.length : ℚ)),
          median := some (quantileQ s (1 / 2)),
          minQ := some (s.getD 0 0),
          maxQ := some (s.getD (s.length - 1) 0),
          q25 := some (quantileQ s (1 / 4)),
          q75 := some (quantileQ s (3 / 4)) }
  | Dtype.datetime =>
      { type := "datetime",
        dtMin := (minInt (dtsOf cells)).map tsIso,
        dtMax := (maxInt (dtsOf cells)).map tsIso }
  | Dtype.obj =>
      let uc := (dedupFirst (nonMissingCells cells)).length
      if (uc : ℚ) / (nRows : ℚ) < 1 / 2 ∧ uc < 1000 then
        { type := "categorical",
          uniqueCount := some uc,
          modeVal := modeCell cells,
          frequencies := (valueCounts cells).take 20 }
      else
        { type := "text", uniqueCount := some uc }

/-- The Column Profiler loop over the header; `inj` injects the per-column
exceptions that the worker catches (`except` at lines 216-219), which turn
the profile into `type = "error"` with a detail string. -/
def profileColumns (nRows : ℕ) (rows : List (List Cell))
    (inj : String → Option String) : List (String × Dtype) → ℕ →
    List (String × ColProfile)
  | [], _ => []
  | h :: hs, j =>
      (h.1,
        match inj h.1 with
        | some e => { type := "error", detail := some e }
        | none => profileColumn nRows h.2 (colCells rows j)) ::
      profileColumns nRows rows inj hs (j + 1)

/-- The `StatsError (col): msg` strings appended while profiling. -/
def statsErrors (inj : String → Option String) :
    List (String × Dtype) → List String :=
  List.filterMap
    (fun h => (inj h.1).map (fun e => "StatsError (" ++ h.1 ++ "): " ++ e))

/-- Columns of a given profile type, in header order. -/
def colsOfType (ty : String) (summary : List (String × ColProfile)) :
    List String :=
  summary.filterMap (fun p => if p.2.type = ty then some p.1 else none)

/-- One output of the sentiment classifier for one document. -/
structure Sentiment where
  label : String
  score : ℚ
deriving DecidableEq, Repr

/-- The `sentiment_scores` payload: either averages plus overall label, or
the error dictionary written by the `except` branches. -/
inductive SentPayload
  | scores (positive negative : ℚ) (label : String)
  | sentError (msg : String)
deriving DecidableEq, Repr

/-- Sentiment aggregation (`worker.py` lines 292-305): sum the scores of
POSITIVE-labelled and NEGATIVE-labelled documents separately, divide both by
the document count, and let the overall label be the key of the larger
average in `max(average, key=average.get)` - which iterates the dict keys
"positive" then "negative" and keeps the first maximum, so ties go to
"positive" and the label is lower-case. -/
def aggregateSentiment (ss : List Sentiment) : SentPayload :=
  let pos := ((ss.filter (fun s => s.label = "POSITIVE")).map
    (fun s => s.score)).sum
  let neg := ((ss.filter (fun s => s.label = "NEGATIVE")).map
    (fun s => s.score)).sum
  let n := ss.length
  if 0 < n then
    let ap := pos / (n : ℚ)
    let an := neg / (n : ℚ)
    SentPayload.scores ap an (if ap < an then "negative" else "positive")
  else
    SentPayload.scores 0 0 "NEUTRAL"

/-- `rolling(window=7).mean()` over the positionally ordered series.  Keys
are `Option ℤ`: `none` is a missing timestamp (`NaT`) - the integer window
is purely positional, so `NaT`-keyed rows participate like any other.  Each
position keeps its key; positions with fewer than seven points of trailing
history (window incomplete, `min_periods` defaulting to the window size)
hold a missing value. -/
def rollingAll (pts : List (Option ℤ × ℚ)) : List (Option ℤ × Option ℚ) :=
  (List.range pts.length).map
    (fun i =>
      ((pts.getD i (none, 0)).1,
        if 6 ≤ i then
          some ((((pts.drop (i - 6)).take 7).map (fun p => p.2)).sum / 7)
        else none))

/-- `rolling(7).mean().dropna()` (`worker.py` line 337-338): drop the
incomplete-window entries instead of zero-filling them.  (`to_dict` would
additionally collapse duplicate keys; the series is modelled as the list of
(key, value) pairs in positional order.) -/
def rollingMean7 (pts : List (Option ℤ × ℚ)) : List (Option ℤ × ℚ) :=
  (rollingAll pts).filterMap (fun e => e.2.map (fun v => (e.1, v)))

/-- Index of a named column in the header (`df[col]`; headers read by pandas
are unique, duplicates having been mangled at read time). -/
def colIdx (header : List (String × Dtype)) (nm : String) : ℕ :=
  header.findIdx (fun h => h.1 = nm)

/-- Strict order on optional timestamps: dated keys ascending, a missing
timestamp after every dated one (`sort_values` with the default
`na_position='last'`). -/
def tsLt : Option ℤ → Option ℤ → Bool
  | some a, some b => a < b
  | some _, none => true
  | none, _ => false

/-- Insert into a sorted list, after existing entries of equal rank. -/
def insertByTs (p : Option ℤ × ℚ) :
    List (Option ℤ × ℚ) → List (Option ℤ × ℚ)
  | [] => [p]
  | q :: qs => if tsLt p.1 q.1 then p :: q :: qs else q :: insertByTs p qs

/-- Chronological sort with missing timestamps last
(`df.sort_values(by=date_col)`; pandas defaults to an unstable quicksort,
so the order among equal timestamps - and among the `NaT` rows - is
unspecified there; no claim depends on it). -/
def sortByTs : List (Option ℤ × ℚ) → List (Option ℤ × ℚ)
  | [] => []
  | p :: ps => insertByTs p (sortByTs ps)

/-- The (timestamp, value) series of a numeric column keyed by the first
datetime column, sorted chronologically with `NaT` rows last.  Rows whose
timestamp is missing are KEPT (cleaning never imputes datetime columns and
`sort_values` places them last), keyed `none`.  Rows whose value is missing
are omitted: after cleaning a numeric column is either fully present or
fully missing, and in the latter case every window is NaN and `dropna`
empties the series either way. -/
def seriesOf (df : DF) (dateCol valCol : String) : List (Option ℤ × ℚ) :=
  sortByTs (df.rows.filterMap
    (fun r =>
      match r.getD (colIdx df.header dateCol) Cell.missing,
            r.getD (colIdx df.header valCol) Cell.missing with
      | Cell.dt t, Cell.num q => some (some t, q)
      | Cell.missing, Cell.num q => some (none, q)
      | _, _ => none))

/-- Sequence a list of fallible computations, stopping at the first
error - the propagation behaviour of a pandas `agg` raising mid-way. -/
def mapExcept {α β : Type} (f : α → Except String β) :
    List α → Except String (List β)
  | [] => Except.ok []
  | x :: xs =>
      match f x with
      | Except.error e => Except.error e
      | Except.ok b =>
          match mapExcept f xs with
          | Except.error e => Except.error e
          | Except.ok bs => Except.ok (b :: bs)

/-- One cell under `fillna('').agg(' '.join)`: a string passes through, a
missing cell was just filled with the empty string, and any other value
(a number or timestamp inside an object column) makes `' '.join` raise
`TypeError`. -/
def cellText : Cell → Except String String
  | Cell.str s => Except.ok s
  | Cell.missing => Except.ok ""
  | _ => Except.error "TypeError"

/-- One row of `df[text_columns].fillna('').agg(' '.join, axis=1)`. -/
def rowDoc (header : List (String × Dtype)) (textCols : List String)
    (r : List Cell) : Except String String :=
  match mapExcept cellText
    (textCols.map (fun c => r.getD (colIdx header c) Cell.missing)) with
  | Except.error e => Except.error e
  | Except.ok ss => Except.ok (String.intercalate " " ss)

/-- The text-column concatenation of `worker.py` line 231.  CRUCIALLY this
statement sits OUTSIDE every `try` of the worker: a `TypeError` raised here
is caught only by the generic handler at line 464 and is fatal to the job. -/
def combineText (textCols : List String) (df : DF) :
    Except String (List String) :=
  mapExcept (rowDoc df.header textCols) df.rows

/-- The concatenation runs only when at least one text column exists
(`if text_columns:` at line 229). -/
def combineTextStage (textCols : List String) (df : DF) :
    Except String (List String) :=
  if textCols.isEmpty then Except.ok [] else combineText textCols df

/-- A cell on which `fillna('').agg(' '.join)` cannot raise. -/
def isTextCell : Cell → Bool
  | Cell.str _ => true
  | Cell.missing => true
  | _ => false

/-- Mean of a list of rationals (0 for the empty list, as `0 / 0 = 0`). -/
def meanQ (xs : List ℚ) : ℚ :=
  xs.sum / (xs.length : ℚ)

/-- Sample covariance of two equal-length series, pandas-normalised by
`n - 1` (`0` when fewer than two points, matching division by zero in `ℚ`). -/
def covQ (xs ys : List ℚ) : ℚ :=
  (((xs.zip ys).map
    (fun p => (p.1 - meanQ xs) * (p.2 - meanQ ys))).sum) /
    ((xs.length : ℚ) - 1)

/-- Sample variance. -/
def varQ (xs : List ℚ) : ℚ :=
  covQ xs xs

/-- The Pearson coefficient computed by `combined_df.corr()`.  Real-valued
because of the square roots; a zero-variance series yields division by zero,
i.e. `0` here, where pandas yields NaN - both fail the `abs > 0.3` test. -/
noncomputable def pearson (xs ys : List ℚ) : ℝ :=
  ((covQ xs ys : ℚ) : ℝ) /
    (Real.sqrt ((varQ xs : ℚ) : ℝ) * Real.sqrt ((varQ ys : ℚ) : ℝ))

/-- The executable form of the retention test `abs(corr_value) > 0.3`:
positive variances (a NaN coefficient from a constant series is never
retained) and squared covariance above `0.09` times the variance product.
The equivalence with `0.3 < abs (pearson)` is proved below. -/
def retainPair (xs ys : List ℚ) : Bool :=
  decide (0 < varQ xs) && decide (0 < varQ ys) &&
    decide (9 * (varQ xs * varQ ys) < (covQ xs ys) ^ 2 * 100)

/-- Correlation keys of one user metric against every trend series. -/
def corrForMetric (m : String × List ℚ) :
    List (String × List ℚ) → List String
  | [] => []
  | t :: ts =>
      (if retainPair m.2 t.2 then [m.1 ++ "_vs_" ++ t.1] else []) ++
        corrForMetric m ts

/-- The nested retention loop of `worker.py` lines 387-393. -/
def corrEntries : List (String × List ℚ) → List (String × List ℚ) →
    List String
  | [], _ => []
  | m :: ms, ts => corrForMetric m ts ++ corrEntries ms ts

/-- The Correlation Analyzer on the joined daily table (`worker.py` lines
384-393): `nRows` is `len(combined_df)` after resampling, joining and
`dropna`; each metric and trend series holds the `nRows` aligned daily
values.  With fewer than two overlapping points the result is empty. -/
def correlationAnalysis (nRows : ℕ) (metrics trends : List (String × List ℚ)) :
    List String :=
  if nRows ≤ 1 then [] else corrEntries metrics trends

/-- The `correlation_analysis` payload: retained keys plus the optional
`error` entry written by the `except` branch. -/
structure CorrPayload where
  entries : List String
  corrError : Option String := none
deriving DecidableEq, Repr

/-- Scalar elements of the numeric numpy arrays that reach
`convert_numpy_types` (arrays in this pipeline are numeric). -/
inductive NpNum
  | i (n : ℤ)
  | f (q : ℚ)

mutual
/-- A Python value of the result payload, as far as serialization cares:
portable scalars, numpy scalar wrappers, pandas Timestamps, numpy arrays,
dictionaries and lists. -/
inductive PyVal
  | pstr (s : String)
  | pint (n : ℤ)
  | pfloat (q : ℚ)
  | pbool (b : Bool)
  | pnull
  | npInt (n : ℤ)
  | npFloat (q : ℚ)
  | timestamp (t : ℤ)
  | ndarray (xs : List NpNum)
  | dict (kvs : PyKVs)
  | plist (xs : PyList)

/-- Key-value pairs of a Python dict. -/
inductive PyKVs
  | nil
  | cons (k v : PyVal) (rest : PyKVs)

/-- Elements of a Python list. -/
inductive PyList
  | nil
  | cons (x : PyVal) (rest : PyList)
end

/-- `ndarray.tolist()`: numeric numpy scalars become plain Python ints and
floats. -/
def npToList : List NpNum → PyList
  | [] => PyList.nil
  | NpNum.i n :: xs => PyList.cons (PyVal.pint n) (npToList xs)
  | NpNum.f q :: xs => PyList.cons (PyVal.pfloat q) (npToList xs)

mutual
/-- `convert_numpy_types` (`worker.py` lines 415-428): numpy scalars to
plain scalars, arrays to lists, Timestamps to ISO strings, recursion into
dict values and list elements; anything else is returned unchanged.  Note
that the dict comprehension `.items()` maps over values only - keys are
passed through as they are. -/
def convert_numpy_types : PyVal → PyVal
  | PyVal.npInt n => PyVal.pint n
  | PyVal.npFloat q => PyVal.pfloat q
  | PyVal.ndarray xs => PyVal.plist (npToList xs)
  | PyVal.timestamp t => PyVal.pstr (tsIso t)
  | PyVal.dict kvs => PyVal.dict (convertKVs kvs)
  | PyVal.plist xs => PyVal.plist (convertList xs)
  | v => v

/-- The dict comprehension: keys kept, values converted. -/
def convertKVs : PyKVs → PyKVs
  | PyKVs.nil => PyKVs.nil
  | PyKVs.cons k v rest => PyKVs.cons k (convert_numpy_types v) (convertKVs rest)

/-- The list comprehension. -/
def convertList : PyList → PyList
  | PyList.nil => PyList.nil
  | PyList.cons x rest => PyList.cons (convert_numpy_types x) (convertList rest)
end

mutual
/-- Every leaf (dict keys included) is a portable scalar, mapping or
sequence: the property the spec asserts of the persisted payload. -/
def portable : PyVal → Bool
  | PyVal.pstr _ => true
  | PyVal.pint _ => true
  | PyVal.pfloat _ => true
  | PyVal.pbool _ => true
  | PyVal.pnull => true
  | PyVal.npInt _ => false
  | PyVal.npFloat _ => false
  | PyVal.timestamp _ => false
  | PyVal.ndarray _ => false
  | PyVal.dict kvs => portableKVs kvs
  | PyVal.plist xs => portableList xs

/-- Portability of a dict, keys and values both. -/
def portableKVs : PyKVs → Bool
  | PyKVs.nil => true
  | PyKVs.cons k v rest => portable k && portable v && portableKVs rest

/-- Portability of a list. -/
def portableList : PyList → Bool
  | PyList.nil => true
  | PyList.cons x rest => portable x && portableList rest
end

mutual
/-- Portability of every leaf reachable as a dict value or list element -
dict keys exempted. -/
def valuePortable : PyVal → Bool
  | PyVal.pstr _ => true
  | PyVal.pint _ => true
  | PyVal.pfloat _ => true
  | PyVal.pbool _ => true
  | PyVal.pnull => true
  | PyVal.npInt _ => false
  | PyVal.npFloat _ => false
  | PyVal.timestamp _ => false
  | PyVal.ndarray _ => false
  | PyVal.dict kvs => valuePortableKVs kvs
  | PyVal.plist xs => valuePortableList xs

/-- Value-portability of a dict: values only. -/
def valuePortableKVs : PyKVs → Bool
  | PyKVs.nil => true
  | PyKVs.cons _ v rest => valuePortable v && valuePortableKVs rest

/-- Value-portability of a list. -/
def valuePortableList : PyList → Bool
  | PyList.nil => true
  | PyList.cons x rest => valuePortable x && valuePortableList rest
end

/-- The `extracted_keywords` payload: top terms, frequency mapping and the
optional `error` entry (the error branch sets all three). -/
structure KeywordsPayload where
  top : List String
  freq : List (String × ℕ)
  kwError : Option String := none
deriving DecidableEq, Repr

/-- One `time_series_analysis` entry: a rolling-mean series or the
column-scoped error string. -/
inductive TsVal
  | series (pts : List (Option ℤ × ℚ))
  | tsError (msg : String)
deriving DecidableEq, Repr

/-- The `processed_data_payload` dictionary (`worker.py` lines 112-121):
`none` models the initial `None` of a field never assigned. -/
structure Payload where
  summary_statistics : Option (List (String × ColProfile)) := none
  extracted_keywords : Option KeywordsPayload := none
  sentiment_scores : Option SentPayload := none
  time_series_analysis : Option (List (String × TsVal)) := none
  correlation_analysis : Option CorrPayload := none
  processing_errors : Option (List String) := none
deriving DecidableEq, Repr

/-- Python truthiness of `payload.get("summary_statistics")`: `None` and the
empty dict are falsy. -/
def summaryTruthy (p : Payload) : Bool :=
  match p.summary_statistics with
  | some l => !l.isEmpty
  | none => false

/-- Observable store interactions of one job, in call order.  The flag of
`statusUpdate` records whether the update was actually applied: the call is
a no-op when the client is missing and swallows its own exceptions
(`update_upload_status`, lines 75-98).  Insert flags record success. -/
inductive Event
  | statusUpdate (status : String) (applied : Bool)
  | resultInsert (ok : Bool)
  | partialInsert (ok : Bool)
deriving DecidableEq, Repr

/-- Inputs consumed by the analysis stages: injected stage exceptions and
the outputs of the external collaborators (TF-IDF machinery, the sentiment
network per deduplicated row, the market-trends query after pandas daily
resampling, pivoting and joining). -/
structure AnalysisEnv where
  statsErr : String → Option String
  keywordsResult : Except String (List String × List (String × ℕ))
  sentimentAvailable : Bool
  sentimentResult : Except String (List Sentiment)
  tsErr : String → Option String
  corrErr : Option String
  trendsEmpty : Bool
  nJoined : ℕ
  userDaily : List (String × List ℚ)
  trendsDaily : List (String × List ℚ)

/-- The full job environment: store and file state, the sniffed MIME type,
the lower-cased extension, what each pandas reader would return, the
analysis inputs and the failure switches of the two result inserts. -/
structure Env where
  supabaseOk : Bool
  statusUpdateErr : Bool
  fileExists : Bool
  mime : String
  ext : String
  csvParse : Except String DF
  excelParse : Except String DF
  analysis : AnalysisEnv
  insertErr : Bool
  partialInsertErr : Bool

/-- Whether a status update issued now is actually applied. -/
def applyOk (supOk updErr : Bool) : Bool :=
  supOk && !updErr

/-- The File Ingestor (`worker.py` lines 139-156).  `magic.from_file` is
called and its result bound to a local that the function never reads - the
binding is kept here to mirror that line; dispatch is on the extension
alone.  Both the unsupported-extension `ValueError` and the
`EmptyDataError` are raised inside the `try`, so the enclosing `except`
rewraps them in the `Failed to read file content` message. -/
def readFile (env : Env) : Except String DF :=
  let _fileMimeType := env.mime
  let parsed : Except String DF :=
    if env.ext = ".csv" then env.csvParse
    else if env.ext = ".xlsx" ∨ env.ext = ".xls" then env.excelParse
    else Except.error
      ("Unsupported file type determined by extension: " ++ env.ext)
  match parsed with
  | Except.error e => Except.error ("Failed to read file content: " ++ e)
  | Except.ok df =>
      if df.isEmptyDF then
        Except.error
          ("Failed to read file content: File is empty or could not be parsed by pandas.")
      else Except.ok df

/-- The `summary_statistics` computed by the Column Profiler loop on a
(cleaned) frame. -/
def summaryOf (a : AnalysisEnv) (df : DF) : List (String × ColProfile) :=
  profileColumns df.rows.length df.rows a.statsErr df.header 0

/-- The guarded analysis stages of `process_uploaded_file` on the cleaned
frame and its profile: keyword/sentiment analysis (each in its own `try`),
time series, correlation.  Runs only after the unguarded text-column
concatenation (`combineTextStage`) succeeded.  Returns the payload (without
`processing_errors`) and the accumulated non-fatal error list. -/
def runAnalyses (a : AnalysisEnv) (df : DF)
    (summary : List (String × ColProfile)) : Payload × List String :=
  let errs1 := statsErrors a.statsErr df.header
  let textCols := colsOfType "text" summary
  let kwSent :=
    if textCols.isEmpty then
      (({ top := [], freq := [] } : KeywordsPayload),
        SentPayload.scores 0 0 "NEUTRAL", ([] : List String))
    else
      let kw :=
        match a.keywordsResult with
        | Except.ok r => (({ top := r.1, freq := r.2 } : KeywordsPayload),
            ([] : List String))
        | Except.error e =>
            (({ top := [], freq := [], kwError := some e } : KeywordsPayload),
              ["KeywordError: " ++ e])
      let sent :=
        if a.sentimentAvailable then
          match a.sentimentResult with
          | Except.ok ss => (aggregateSentiment ss, ([] : List String))
          | Except.error e => (SentPayload.sentError e, ["SentimentError: " ++ e])
        else (SentPayload.sentError "Pipeline not loaded", ([] : List String))
      (kw.1, sent.1, kw.2 ++ sent.2)
  let dtCols := colsOfType "datetime" summary
  let numCols := colsOfType "numerical" summary
  let ts :=
    if dtCols.isEmpty || numCols.isEmpty then
      ((none : Option (List (String × TsVal))), ([] : List String))
    else
      let dateCol := dtCols.headD ""
      let ent := numCols.map
        (fun c =>
          match a.tsErr c with
          | some e =>
              ((c ++ "_error", TsVal.tsError e),
                some ("TimeSeriesError (" ++ c ++ "): " ++ e))
          | none =>
              ((c ++ "_rolling_mean_7d",
                TsVal.series (rollingMean7 (seriesOf df dateCol c))),
                (none : Option String)))
      (some (ent.map (fun p => p.1)), ent.filterMap (fun p => p.2))
  let corr :=
    if dtCols.isEmpty || numCols.isEmpty then
      (({ entries := [] } : CorrPayload), ([] : List String))
    else
      match a.corrErr with
      | some e =>
          (({ entries := [], corrError := some e } : CorrPayload),
            ["CorrelationError: " ++ e])
      | none =>
          if a.trendsEmpty then (({ entries := [] } : CorrPayload), ([] : List String))
          else
            (({ entries := correlationAnalysis a.nJoined a.userDaily a.trendsDaily } :
              CorrPayload), ([] : List String))
  ({ summary_statistics := some summary,
     extracted_keywords := some kwSent.1,
     sentiment_scores := some kwSent.2.1,
     time_series_analysis := ts.1,
     correlation_analysis := some corr.1,
     processing_errors := none },
    errs1 ++ kwSent.2.2 ++ ts.2 ++ corr.2)

/-- Result of one job: terminal status, recorded error reason, final payload
and the store interactions in order. -/
structure JobResult where
  finalStatus : String
  errorReason : Option String
  payload : Payload
  events : List Event
deriving DecidableEq, Repr

/-- The `finally` failure path (`worker.py` lines 469-486): overwrite
`processing_errors` with the analysis errors plus the fatal reason, call the
`failed` status update first, then - only if the client is available and
`summary_statistics` is truthy - attempt the partial insert, whose own
failure is caught and changes nothing further. -/
def finishFailed (supOk applied : Bool) (p : Payload)
    (analysisErrors : List String) (reason : String) (ev : List Event)
    (pInsErr : Bool) : JobResult :=
  let pe := some (analysisErrors ++ ["FatalError: " ++ reason])
  let p2 := { p with processing_errors := pe }
  let ev2 := ev ++ [Event.statusUpdate "failed" applied]
  let ev3 :=
    if supOk && summaryTruthy p2 then ev2 ++ [Event.partialInsert (!pInsErr)]
    else ev2
  { finalStatus := "failed", errorReason := some reason, payload := p2,
    events := ev3 }

/-- The fatal path taken when the unguarded text-column concatenation of
line 231 raises: only `summary_statistics` has been written into the
payload, the per-column stat errors are the analysis errors collected so
far, and the generic `except Exception` handler names the exception class
in the reason. -/
def concatFatal (applied : Bool) (a : AnalysisEnv) (df : DF)
    (summary : List (String × ColProfile)) (ty : String) (pInsErr : Bool) :
    JobResult :=
  finishFailed true applied { summary_statistics := some summary }
    (statsErrors a.statsErr df.header)
    ("Unexpected error during processing: " ++ ty)
    [Event.statusUpdate "processing" applied] pInsErr

/-- The rest of the job once the concatenation of line 231 succeeded: the
guarded analyses run, then the final insert either succeeds (`completed`)
or its exception is rewrapped by the generic handler (`failed`). -/
def afterConcat (applied : Bool) (a : AnalysisEnv) (df : DF)
    (summary : List (String × ColProfile)) (insErr pInsErr : Bool) :
    JobResult :=
  let pr := runAnalyses a df summary
  let pe := if pr.2.isEmpty then none else some pr.2
  let pFinal := { pr.1 with processing_errors := pe }
  let ev := [Event.statusUpdate "processing" applied,
    Event.resultInsert (!insErr)]
  if insErr then
    finishFailed true applied pFinal pr.2
      "Unexpected error during processing: Exception" ev pInsErr
  else
    { finalStatus := "completed", errorReason := none,
      payload := pFinal,
      events := ev ++ [Event.statusUpdate "completed" applied] }

/-- `process_uploaded_file` over explicit inputs: client availability, the
applied-flag of status updates, file existence, the reader result, the
analysis inputs and the two insert-failure switches. -/
def processWith (supOk applied fileEx : Bool) (readRes : Except String DF)
    (a : AnalysisEnv) (insErr pInsErr : Bool) : JobResult :=
  if supOk = false then
    finishFailed false applied {} []
      "Supabase client not initialized. Cannot proceed." [] pInsErr
  else if fileEx = false then
    finishFailed true applied {} [] "Temporary file does not exist"
      [Event.statusUpdate "processing" applied] pInsErr
  else
    match readRes with
    | Except.error e =>
        finishFailed true applied {} [] e
          [Event.statusUpdate "processing" applied] pInsErr
    | Except.ok df =>
        let cdf := clean df
        let summary := summaryOf a cdf
        match combineTextStage (colsOfType "text" summary) cdf with
        | Except.error ty => concatFatal applied a cdf summary ty pInsErr
        | Except.ok _docs => afterConcat applied a cdf summary insErr pInsErr

/-- The Job Orchestrator `process_uploaded_file` on a job environment. -/
def process (env : Env) : JobResult :=
  processWith env.supabaseOk (applyOk env.supabaseOk env.statusUpdateErr)
    env.fileExists (readFile env) env.analysis env.insertErr
    env.partialInsertErr

/-- The payload persisted on the success path: the analyses plus their
non-fatal error list (or null when empty). -/
def completedPayload (a : AnalysisEnv) (df : DF) : Payload :=
  let pr := runAnalyses a (clean df) (summaryOf a (clean df))
  let pe := if pr.2.isEmpty then none else some pr.2
  { pr.1 with processing_errors := pe }

/-- The payload carried into the failure path: whatever was computed, with
`processing_errors` overwritten by the analysis errors plus the fatal
reason. -/
def failedPayload (p0 : Payload) (errs : List String) (reason : String) :
    Payload :=
  let pe := some (errs ++ ["FatalError: " ++ reason])
  { p0 with processing_errors := pe }

/-- Events that write an AnalysisResult record. -/
def isInsertEvent : Event → Bool
  | Event.resultInsert _ => true
  | Event.partialInsert _ => true
  | _ => false

/-- Analysis environment in which every external collaborator behaves. -/
def benignAnalysis : AnalysisEnv :=
  { statsErr := fun _ => none,
    keywordsResult := Except.ok ([], []),
    sentimentAvailable := true,
    sentimentResult := Except.ok [],
    tsErr := fun _ => none,
    corrErr := none,
    trendsEmpty := true,
    nJoined := 0,
    userDaily := [],
    trendsDaily := [] }

/-- A healthy job environment around a given CSV parse result. -/
def baseEnv (p : Except String DF) : Env :=
  { supabaseOk := true,
    statusUpdateErr := false,
    fileExists := true,
    mime := "text/csv",
    ext := ".csv",
    csvParse := p,
    excelParse := Except.error "no workbook",
    analysis := benignAnalysis,
    insertErr := false,
    partialInsertErr := false }

/-- What `pd.read_csv` returns on the plain-text file
"hello world\nthis is plain text\nmore plain text": the first line becomes
the header of a single object column, the remaining lines its rows. -/
def dfPlainText : DF :=
  { header := [("hello world", Dtype.obj)],
    rows := [[Cell.str "this is plain text"], [Cell.str "more plain text"]] }

/-- A `.csv`-named upload whose bytes are plain unstructured text: the MIME
type sniffed from the bytes is `text/plain`, yet pandas parses it. -/
def envPlainText : Env :=
  { baseEnv (Except.ok dfPlainText) with mime := "text/plain" }

/-- The scenario-4 dataset: one text column repeating "great fantastic
excellent"; after deduplication one document remains, which the classifier
labels POSITIVE with high confidence. -/
def dfGreat : DF :=
  { header := [("feedback", Dtype.obj)],
    rows := [[Cell.str "great fantastic excellent"],
      [Cell.str "great fantastic excellent"],
      [Cell.str "great fantastic excellent"]] }

/-- Scenario-4 environment: classifier output POSITIVE at score 0.999. -/
def envGreat : Env :=
  { baseEnv (Except.ok dfGreat) with analysis :=
    { benignAnalysis with
      sentimentResult := Except.ok [{ label := "POSITIVE", score := 999 / 1000 }] } }

/-- A two-row numeric dataset. -/
def dfSimple : DF :=
  { header := [("a", Dtype.numeric)],
    rows := [[Cell.num 1], [Cell.num 2]] }

/-- A healthy job whose every durable status update raises inside the
store client. -/
def envUpdateFails : Env :=
  { baseEnv (Except.ok dfSimple) with statusUpdateErr := true }

/-- Dataset with a text, a datetime, a numeric and a second numeric
column, two distinct rows. -/
def dfFour : DF :=
  { header := [("note", Dtype.obj), ("day", Dtype.datetime),
      ("amount", Dtype.numeric), ("bad", Dtype.numeric)],
    rows := [[Cell.str "alpha beta gamma", Cell.dt 1, Cell.num 5, Cell.num 1],
      [Cell.str "delta epsilon zeta", Cell.dt 2, Cell.num 6, Cell.num 2]] }

/-- Environment in which every analysis stage fails: the stats of column
"bad", keyword extraction, sentiment, the time series of "amount" and the
correlation query all raise. -/
def envAllStagesFail : Env :=
  { baseEnv (Except.ok dfFour) with analysis :=
    { statsErr := fun c => if c = "bad" then some "stats boom" else none,
      keywordsResult := Except.error "kw boom",
      sentimentAvailable := true,
      sentimentResult := Except.error "sent boom",
      tsErr := fun c => if c = "amount" then some "ts boom" else none,
      corrErr := some "corr boom",
      trendsEmpty := true,
      nJoined := 0,
      userDaily := [],
      trendsDaily := [] } }

/-- A dataset on which the cleaner misbehaves: column "a" is numeric with
one missing cell whose median imputation equals an existing row, column "b"
is numeric and entirely missing. -/
def dfC6 : DF :=
  { header := [("a", Dtype.numeric), ("b", Dtype.numeric)],
    rows := [[Cell.num 1, Cell.missing], [Cell.num 3, Cell.missing],
      [Cell.num 2, Cell.missing], [Cell.missing, Cell.missing]] }

/-- A healthy job that fails at the final result insert. -/
def envInsertFails : Env :=
  { baseEnv (Except.ok dfSimple) with insertErr := true }

/-- A job whose file is gone before reading. -/
def envNoFile : Env :=
  { baseEnv (Except.ok dfSimple) with fileExists := false }

/-- A job whose durable-store client was never initialized. -/
def envNoStore : Env :=
  { baseEnv (Except.ok dfSimple) with supabaseOk := false }

/-- An object column holding a string and a number, the shape an Excel
sheet with a mixed column produces: the profiler classifies it as text
(its unique-value ratio is 1), yet one of its cells is not a string. -/
def dfMixedText : DF :=
  { header := [("mixed", Dtype.obj)],
    rows := [[Cell.str "alpha"], [Cell.num 5]] }

/-- A healthy job environment around the mixed text column. -/
def envMixedText : Env :=
  baseEnv (Except.ok dfMixedText)

/-- Six dated rows plus one row whose date cell is missing (`NaT`): pandas
keeps the missing-date row, sorts it after the dated ones, and it pads the
positional 7-row window. -/
def dfTs : DF :=
  { header := [("day", Dtype.datetime), ("v", Dtype.numeric)],
    rows := [[Cell.dt 1, Cell.num 1], [Cell.dt 2, Cell.num 2],
      [Cell.dt 3, Cell.num 3], [Cell.dt 4, Cell.num 4],
      [Cell.dt 5, Cell.num 5], [Cell.dt 6, Cell.num 6],
      [Cell.missing, Cell.num 14]] }

/-! ## Helper lemmas -/

theorem dedupFirstAux_subset {α : Type} [DecidableEq α] :
    ∀ (l seen : List α), ∀ x ∈ dedupFirstAux seen l, x ∈ l := by
  intro l
  induction l with
  | nil => intro seen x hx; cases hx
  | cons y ys ih =>
      intro seen x hx
      rw [dedupFirstAux] at hx
      by_cases hy : y ∈ seen
      · rw [if_pos hy] at hx
        exact List.mem_cons_of_mem _ (ih seen x hx)
      · rw [if_neg hy] at hx
        rcases List.mem_cons.mp hx with hx | hx
        · exact hx ▸ List.mem_cons_self _ _
        · exact List.mem_cons_of_mem _ (ih (y :: seen) x hx)

theorem dedupFirstAux_not_seen {α : Type} [DecidableEq α] :
    ∀ (l seen : List α), ∀ x ∈ dedupFirstAux seen l, x ∉ seen := by
  intro l
  induction l with
  | nil => intro seen x hx; cases hx
  | cons y ys ih =>
      intro seen x hx
      rw [dedupFirstAux] at hx
      by_cases hy : y ∈ seen
      · rw [if_pos hy] at hx
        exact ih seen x hx
      · rw [if_neg hy] at hx
        rcases List.mem_cons.mp hx with hx | hx
        · exact hx ▸ hy
        · intro hs
          exact ih (y :: seen) x hx (List.mem_cons_of_mem _ hs)

theorem dedupFirstAux_nodup {α : Type} [DecidableEq α] :
    ∀ (l seen : List α), (dedupFirstAux seen l).Nodup := by
  intro l
  induction l with
  | nil => intro seen; exact List.nodup_nil
  | cons y ys ih =>
      intro seen
      rw [dedupFirstAux]
      by_cases hy : y ∈ seen
      · rw [if_pos hy]; exact ih seen
      · rw [if_neg hy]
        refine List.nodup_cons.mpr ⟨fun hmem => ?_, ih (y :: seen)⟩
        exact dedupFirstAux_not_seen ys (y :: seen) y hmem
          (List.mem_cons_self _ _)

theorem dedupFirst_subset {α : Type} [DecidableEq α] :
    ∀ l : List α, ∀ x ∈ dedupFirst l, x ∈ l :=
  fun l => dedupFirstAux_subset l []

theorem dedupFirst_nodup {α : Type} [DecidableEq α] (l : List α) :
    (dedupFirst l).Nodup :=
  dedupFirstAux_nodup l []

theorem mem_of_getElemQ {α : Type} {l : List α} {i : ℕ} {a : α}
    (h : l[i]? = some a) : a ∈ l := by
  rcases List.getElem?_eq_some.mp h with ⟨hlt, rfl⟩
  exact List.getElem_mem hlt

theorem fillsOf_getD (header : List (String × Dtype)) (rows : List (List Cell))
    (j : ℕ) (hj : j < header.length) :
    (fillsOf header rows).getD j none =
      fillValue (header.getD j dummyHd).2 (colCells rows j) := by
  rw [fillsOf, List.getD_eq_getElem?_getD, List.getElem?_map,
    List.getElem?_range hj]
  rfl

theorem fillsOf_length (header : List (String × Dtype))
    (rows : List (List Cell)) : (fillsOf header rows).length = header.length := by
  rw [fillsOf, List.length_map, List.length_range]

theorem imputeRow_getD (fills : List (Option Cell)) (r : List Cell) (j : ℕ)
    (hj : j < r.length) (hlen : r.length ≤ fills.length) :
    (imputeRow fills r).getD j Cell.missing =
      (if r.getD j Cell.missing = Cell.missing then
        (fills.getD j none).getD Cell.missing
      else r.getD j Cell.missing) := by
  have hjf : j < fills.length := lt_of_lt_of_le hj hlen
  rw [imputeRow, List.getD_eq_getElem?_getD, List.getElem?_zipWith',
    List.getElem?_eq_getElem hjf, List.getElem?_eq_getElem hj]
  rw [List.getD_eq_getElem?_getD r j Cell.missing, List.getElem?_eq_getElem hj,
    List.getD_eq_getElem?_getD fills j none, List.getElem?_eq_getElem hjf]
  simp only [Option.map_some', Option.some_bind, Option.getD_some]

theorem clean_colCells (df : DF) (j : ℕ) :
    colCells (clean df).rows j =
      (dedupFirst df.rows).map
        (fun r => (imputeRow (fillsOf df.header (dedupFirst df.rows)) r).getD j
          Cell.missing) := by
  rw [clean, colCells]
  exact List.map_map _ _ _

/-! ## C5: the Column Profiler is total, one entry per column, closed type set -/

theorem profileColumn_type_cases (nRows : ℕ) (dt : Dtype) (cells : List Cell) :
    (profileColumn nRows dt cells).type = "numerical" ∨
    (profileColumn nRows dt cells).type = "datetime" ∨
    (profileColumn nRows dt cells).type = "categorical" ∨
    (profileColumn nRows dt cells).type = "text" := by
  cases dt <;> simp only [profileColumn] <;> (try split) <;> simp

/-- C5: for every cleaned dataset (any header, any row data, any injected
per-column failure), the Column Profiler emits exactly one profile per input
column - same count, same names, in order - never propagates a per-column
exception (it is a total function whose error case is the `type = "error"`
profile with a detail string), and every emitted type category lies in
the set containing numerical, categorical, text, datetime and error. -/
theorem C5_profiler_total (nRows : ℕ) (rows : List (List Cell))
    (inj : String → Option String) (header : List (String × Dtype)) (j : ℕ) :
    (profileColumns nRows rows inj header j).length = header.length ∧
    (profileColumns nRows rows inj header j).map Prod.fst = header.map Prod.fst ∧
    ∀ p ∈ profileColumns nRows rows inj header j,
      (p.2.type ∈
        (["numerical", "categorical", "text", "datetime", "error"] : List String) ∧
        (p.2.type = "error" → p.2.detail ≠ none)) := by
  induction header generalizing j with
  | nil => exact ⟨rfl, rfl, by intro p hp; cases hp⟩
  | cons h hs ih =>
      obtain ⟨ih1, ih2, ih3⟩ := ih (j + 1)
      refine ⟨by simpa [profileColumns] using ih1,
        by simpa [profileColumns] using ih2, ?_⟩
      intro p hp
      rw [profileColumns] at hp
      rcases List.mem_cons.mp hp with hp | hp
      · subst hp
        cases hinj : inj h.1 with
        | some e => simp [hinj]
        | none =>
            simp only [hinj]
            rcases profileColumn_type_cases nRows h.2 (colCells rows j) with
              ht | ht | ht | ht <;> rw [ht] <;> exact ⟨by simp, by simp⟩
      · exact ih3 p hp

/-! ## C9: numpy-type conversion -/

theorem valuePortableList_npToList (xs : List NpNum) :
    valuePortableList (npToList xs) = true := by
  induction xs with
  | nil => rfl
  | cons x xs ih =>
      cases x <;> simp [npToList, valuePortableList, valuePortable, ih]

mutual
theorem valuePortable_convert (v : PyVal) :
    valuePortable (convert_numpy_types v) = true :=
  match v with
  | PyVal.pstr _ => rfl
  | PyVal.pint _ => rfl
  | PyVal.pfloat _ => rfl
  | PyVal.pbool _ => rfl
  | PyVal.pnull => rfl
  | PyVal.npInt _ => rfl
  | PyVal.npFloat _ => rfl
  | PyVal.timestamp _ => rfl
  | PyVal.ndarray xs => valuePortableList_npToList xs
  | PyVal.dict kvs => valuePortableKVs_convert kvs
  | PyVal.plist xs => valuePortableList_convert xs

theorem valuePortableKVs_convert (kvs : PyKVs) :
    valuePortableKVs (convertKVs kvs) = true :=
  match kvs with
  | PyKVs.nil => rfl
  | PyKVs.cons k v rest => by
      rw [convertKVs, valuePortableKVs, valuePortable_convert v,
        valuePortableKVs_convert rest]
      rfl

theorem valuePortableList_convert (xs : PyList) :
    valuePortableList (convertList xs) = true :=
  match xs with
  | PyList.nil => rfl
  | PyList.cons x rest => by
      rw [convertList, valuePortableList, valuePortable_convert x,
        valuePortableList_convert rest]
      rfl
end

/-- C9 counterexample: a dictionary keyed by a pandas Timestamp - exactly
the shape of each `time_series_analysis` entry, which is
`rolling.mean().dropna().to_dict()` with Timestamp keys and numpy-float
values - still holds the library Timestamp key after conversion, so the
converted payload is not portable at every leaf. -/
theorem C9_keys_counterexample :
    portable (convert_numpy_types
      (PyVal.dict (PyKVs.cons (PyVal.timestamp 0) (PyVal.npFloat (1 / 2))
        PyKVs.nil))) = false := rfl

/-- C9 amended: the conversion recurses through mapping values and sequence
elements only, so every leaf reachable as a mapping value or sequence
element of the converted payload is a portable scalar, mapping or sequence;
mapping keys, however, are passed through unconverted (see the
counterexample for the Timestamp-keyed time-series mapping). -/
theorem C9_values_amended (v : PyVal) :
    valuePortable (convert_numpy_types v) = true :=
  valuePortable_convert v

/-! ## C6: the Data Cleaner -/

theorem clean_rows_map (df : DF) :
    (clean df).rows =
      (dedupFirst df.rows).map
        (imputeRow (fillsOf df.header (dedupFirst df.rows))) := rfl

theorem dedup_row_length (df : DF)
    (hrect : ∀ r ∈ df.rows, r.length = df.header.length) :
    ∀ r ∈ dedupFirst df.rows, r.length = df.header.length :=
  fun r hr => hrect r (dedupFirst_subset _ r hr)

theorem imputeRow_cell (df : DF) (j : ℕ) (r : List Cell)
    (hrect : ∀ r ∈ df.rows, r.length = df.header.length)
    (hr : r ∈ dedupFirst df.rows) (hj : j < df.header.length) :
    (imputeRow (fillsOf df.header (dedupFirst df.rows)) r).getD j Cell.missing =
      (if r.getD j Cell.missing = Cell.missing then
        (fillValue (df.header.getD j dummyHd).2
          (colCells (dedupFirst df.rows) j)).getD Cell.missing
      else r.getD j Cell.missing) := by
  have hlen : r.length = df.header.length := dedup_row_length df hrect r hr
  rw [imputeRow_getD _ _ _ (hlen ▸ hj) (le_of_eq (by rw [hlen, fillsOf_length])),
    fillsOf_getD _ _ _ hj]

theorem clean_dfC6 :
    (clean dfC6).rows = [[Cell.num 1, Cell.missing], [Cell.num 3, Cell.missing],
      [Cell.num 2, Cell.missing], [Cell.num 2, Cell.missing]] := by
  have hd : dedupFirst dfC6.rows = dfC6.rows := by decide
  have hm : medianQ [1, 3, 2] = 2 := by
    norm_num [medianQ, quantileQ, sortQ, insertSorted]
  have hn : numsOf (colCells dfC6.rows 0) = [1, 3, 2] := by decide
  have hn1 : numsOf (colCells dfC6.rows 1) = [] := by decide
  rw [clean_rows_map, hd]
  rw [show fillsOf dfC6.header dfC6.rows =
    [some (Cell.num (medianQ [1, 3, 2])), none] from ?_]
  · rw [hm]; decide
  · rw [show dfC6.header = [("a", Dtype.numeric), ("b", Dtype.numeric)] from rfl]
    simp [fillsOf, List.range_succ, fillValue, hn, hn1]

/-- C6 counterexample: on `dfC6` the claim fails twice over - imputing the
median 2 into the missing cell of column "a" makes the third and fourth
rows equal, so the cleaned output has duplicate rows; and column "b" is
numeric with missing values yet keeps them all, because its median is
undefined. -/
theorem C6_cleaner_counterexample :
    ¬ ((clean dfC6).rows.Nodup ∧
      ∀ c ∈ colCells (clean dfC6).rows 1, c ≠ Cell.missing) := by
  rw [show colCells (clean dfC6).rows 1 =
      (clean dfC6).rows.map (fun r => r.getD 1 Cell.missing) from rfl,
    clean_dfC6]
  decide

/-- C6 amended: deduplication removes every duplicate among the raw rows
(the deduplicated intermediate is duplicate-free), but imputation runs
afterwards and may make rows equal again; a numeric column with at least
one present value has no missing cell after cleaning, each of its missing
cells becoming the column median, while an all-missing numeric column stays
missing since its median is undefined; a missing object-column cell becomes
the column mode, or the literal "Unknown" when the mode is undefined; and
every non-missing cell is unchanged. -/
theorem C6_cleaner_amended :
    (∀ l : List (List Cell), (dedupFirst l).Nodup) ∧
    (∀ (df : DF) (j : ℕ),
      (∀ r ∈ df.rows, r.length = df.header.length) →
      j < df.header.length →
      (df.header.getD j dummyHd).2 = Dtype.numeric →
      numsOf (colCells (dedupFirst df.rows) j) ≠ [] →
      ∀ c ∈ colCells (clean df).rows j, c ≠ Cell.missing) ∧
    (∀ (df : DF) (j i : ℕ) (r : List Cell),
      (∀ r ∈ df.rows, r.length = df.header.length) →
      j < df.header.length →
      (df.header.getD j dummyHd).2 = Dtype.numeric →
      numsOf (colCells (dedupFirst df.rows) j) ≠ [] →
      (dedupFirst df.rows)[i]? = some r →
      r.getD j Cell.missing = Cell.missing →
      ((clean df).rows[i]?).map (fun r2 => r2.getD j Cell.missing) =
        some (Cell.num (medianQ (numsOf (colCells (dedupFirst df.rows) j))))) ∧
    (∀ (df : DF) (j i : ℕ) (r : List Cell),
      (∀ r ∈ df.rows, r.length = df.header.length) →
      j < df.header.length →
      (df.header.getD j dummyHd).2 = Dtype.obj →
      (dedupFirst df.rows)[i]? = some r →
      r.getD j Cell.missing = Cell.missing →
      ((clean df).rows[i]?).map (fun r2 => r2.getD j Cell.missing) =
        some ((modeCell (colCells (dedupFirst df.rows) j)).getD
          (Cell.str "Unknown"))) ∧
    (∀ (df : DF) (j i : ℕ) (r : List Cell),
      (∀ r ∈ df.rows, r.length = df.header.length) →
      (dedupFirst df.rows)[i]? = some r →
      r.getD j Cell.missing ≠ Cell.missing →
      ((clean df).rows[i]?).map (fun r2 => r2.getD j Cell.missing) =
        some (r.getD j Cell.missing)) := by
  refine ⟨fun l => dedupFirst_nodup l, ?_, ?_, ?_, ?_⟩
  · intro df j hrect hj hnum hcol c hc
    rw [clean_colCells] at hc
    rcases List.mem_map.mp hc with ⟨r, hr, hcell⟩
    rw [imputeRow_cell df j r hrect hr hj] at hcell
    by_cases hm : r.getD j Cell.missing = Cell.missing
    · rw [if_pos hm, hnum, fillValue] at hcell
      have : ¬ (numsOf (colCells (dedupFirst df.rows) j)).isEmpty := by
        simpa [List.isEmpty_iff] using hcol
      rw [if_neg this] at hcell
      rw [← hcell]
      simp
    · rw [if_neg hm] at hcell
      rw [← hcell]
      exact hm
  · intro df j i r hrect hj hnum hcol hi hm
    have hr : r ∈ dedupFirst df.rows := mem_of_getElemQ hi
    rw [clean_rows_map, List.getElem?_map, hi]
    simp only [Option.map_some']
    rw [imputeRow_cell df j r hrect hr hj, if_pos hm, hnum, fillValue]
    have : ¬ (numsOf (colCells (dedupFirst df.rows) j)).isEmpty := by
      simpa [List.isEmpty_iff] using hcol
    rw [if_neg this]
    rfl
  · intro df j i r hrect hj hobj hi hm
    have hr : r ∈ dedupFirst df.rows := mem_of_getElemQ hi
    rw [clean_rows_map, List.getElem?_map, hi]
    simp only [Option.map_some']
    rw [imputeRow_cell df j r hrect hr hj, if_pos hm, hobj, fillValue]
    rfl
  · intro df j i r hrect hi hm
    have hr : r ∈ dedupFirst df.rows := mem_of_getElemQ hi
    rw [clean_rows_map, List.getElem?_map, hi]
    simp only [Option.map_some']
    by_cases hj : j < df.header.length
    · rw [imputeRow_cell df j r hrect hr hj, if_neg hm]
    · exfalso
      apply hm
      have hlen : r.length = df.header.length := dedup_row_length df hrect r hr
      rw [List.getD_eq_getElem?_getD, List.getElem?_eq_none]
      · rfl
      · rw [hlen]; exact le_of_not_lt hj

/-! ## C7: the 7-period rolling mean -/

theorem filterMap_range_window {α β : Type} (key : ℕ → α) (val : ℕ → β) :
    ∀ len : ℕ,
      (List.range len).filterMap
        (fun i => (if 6 ≤ i then some (val i) else none).map
          (fun v => (key i, v))) =
      (List.range (len - 6)).map (fun k => (key (k + 6), val (k + 6))) := by
  intro len
  induction len with
  | zero => rfl
  | succ m ih =>
      rw [List.range_succ, List.filterMap_append, ih]
      by_cases hm : 6 ≤ m
      · have h1 : m + 1 - 6 = (m - 6) + 1 := by omega
        have h2 : m - 6 + 6 = m := by omega
        rw [h1, List.range_succ, List.map_append]
        simp [hm, h2]
      · have h1 : m + 1 - 6 = 0 := by omega
        have h2 : m - 6 = 0 := by omega
        rw [h1] at *
        rw [h2] at ih ⊢
        simp [hm]

theorem rollingMean7_eq (pts : List (Option ℤ × ℚ)) :
    rollingMean7 pts =
      (List.range (pts.length - 6)).map
        (fun k => ((pts.getD (k + 6) (none, 0)).1,
          (((pts.drop (k + 6 - 6)).take 7).map (fun p => p.2)).sum / 7)) := by
  rw [rollingMean7, rollingAll, List.filterMap_map]
  exact filterMap_range_window (fun i => (pts.getD i (none, 0)).1)
    (fun i => (((pts.drop (i - 6)).take 7).map (fun p => p.2)).sum / 7)
    pts.length

theorem insertByTs_length (p : Option ℤ × ℚ) :
    ∀ l : List (Option ℤ × ℚ), (insertByTs p l).length = l.length + 1 := by
  intro l
  induction l with
  | nil => rfl
  | cons q qs ih =>
      rw [insertByTs]
      by_cases h : tsLt p.1 q.1
      · rw [if_pos h]; rfl
      · rw [if_neg h, List.length_cons, List.length_cons, ih]

theorem sortByTs_length :
    ∀ l : List (Option ℤ × ℚ), (sortByTs l).length = l.length := by
  intro l
  induction l with
  | nil => rfl
  | cons p ps ih => rw [sortByTs, insertByTs_length, ih, List.length_cons]

/-- C7 counterexample: six dated rows plus one row whose date cell is
missing.  Pandas keeps the `NaT` row (it sorts after the dated ones), and it
pads the positional `rolling(window=7)` window, so the published series is
not empty although only six timestamped points exist - and its single entry
is keyed by the missing timestamp, not by any timestamp of the data. -/
theorem C7_rolling_mean_counterexample :
    seriesOf dfTs "day" "v" =
      [(some 1, 1), (some 2, 2), (some 3, 3), (some 4, 4), (some 5, 5),
        (some 6, 6), (none, 14)] ∧
    ((seriesOf dfTs "day" "v").filter (fun p => p.1.isSome)).length = 6 ∧
    rollingMean7 (seriesOf dfTs "day" "v") = [(none, 5)] := by
  have hs : seriesOf dfTs "day" "v" =
      [(some 1, 1), (some 2, 2), (some 3, 3), (some 4, 4), (some 5, 5),
        (some 6, 6), (none, 14)] := by decide
  refine ⟨hs, by decide, ?_⟩
  rw [hs, rollingMean7_eq]
  norm_num [List.range_succ]

/-- C7 amended: the Time-Series Analyzer sorts the rows by the datetime
column with missing dates placed last and drops none of them
(`sortByTs` preserves the series length), then takes a positional 7-ROW
moving average (`rollingMean7`): a series of fewer than seven rows -
dated or not - yields an empty result, the result has exactly
`length - 6` entries, and the entry at index `k` carries the possibly
missing timestamp of row `k + 6` and the arithmetic mean of the seven
values ending there. -/
theorem C7_rolling_mean_amended :
    (∀ l : List (Option ℤ × ℚ), (sortByTs l).length = l.length) ∧
    (∀ pts : List (Option ℤ × ℚ), pts.length < 7 → rollingMean7 pts = []) ∧
    (∀ pts : List (Option ℤ × ℚ), (rollingMean7 pts).length = pts.length - 6) ∧
    (∀ (pts : List (Option ℤ × ℚ)) (k : ℕ), k + 6 < pts.length →
      (rollingMean7 pts)[k]? =
        some ((pts.getD (k + 6) (none, 0)).1,
          (((pts.drop k).take 7).map (fun p => p.2)).sum / 7)) := by
  refine ⟨sortByTs_length, ?_, ?_, ?_⟩
  · intro pts h
    rw [rollingMean7_eq]
    have : pts.length - 6 = 0 := by omega
    rw [this]
    rfl
  · intro pts
    rw [rollingMean7_eq, List.length_map, List.length_range]
  · intro pts k hk
    rw [rollingMean7_eq, List.getElem?_map, List.getElem?_range (by omega)]
    simp

/-- Concrete instances of the amended C7: sorting a two-row series with one
missing date keeps both rows; six rows produce an empty series; seven rows
(six dated, one missing) produce exactly the mean of the full window, keyed
by the missing date of the last row. -/
theorem C7_rolling_mean_witness :
    (sortByTs [((none : Option ℤ), (14 : ℚ)), (some 1, 1)]).length = 2 ∧
    rollingMean7 [((some 1 : Option ℤ), (1 : ℚ)), (some 2, 2), (some 3, 3),
      (some 4, 4), (some 5, 5), (some 6, 6)] = [] ∧
    (rollingMean7 [((some 1 : Option ℤ), (1 : ℚ)), (some 2, 2), (some 3, 3),
      (some 4, 4), (some 5, 5), (some 6, 6), (none, 14)])[0]? =
      some (none, 5) := by
  refine ⟨C7_rolling_mean_amended.1 _, C7_rolling_mean_amended.2.1 _ (by decide), ?_⟩
  rw [C7_rolling_mean_amended.2.2.2 [((some 1 : Option ℤ), (1 : ℚ)), (some 2, 2),
    (some 3, 3), (some 4, 4), (some 5, 5), (some 6, 6), (none, 14)] 0 (by decide)]
  norm_num

/-! ## C8: correlation analysis -/

theorem zip_self {α : Type} (xs : List α) : xs.zip xs = xs.map (fun x => (x, x)) := by
  induction xs with
  | nil => rfl
  | cons a l ih =>
      show (a, a) :: l.zip l = (a, a) :: l.map (fun x => (x, x))
      rw [ih]

theorem varQ_nonneg (xs : List ℚ) : 0 ≤ varQ xs := by
  rw [varQ, covQ]
  have hnum : 0 ≤ ((xs.zip xs).map
      (fun p => (p.1 - meanQ xs) * (p.2 - meanQ xs))).sum := by
    rw [zip_self, List.map_map]
    apply List.sum_nonneg
    intro q hq
    rcases List.mem_map.mp hq with ⟨x, hx, rfl⟩
    exact mul_self_nonneg _
  rcases xs with _ | ⟨a, l⟩
  · simp
  · rcases l with _ | ⟨b, l2⟩
    · simp
    · apply div_nonneg hnum
      have h2 : ((a :: b :: l2).length : ℚ) = (l2.length : ℚ) + 2 := by
        push_cast [List.length_cons]
        ring
      rw [h2]
      have : (0:ℚ) ≤ (l2.length : ℚ) := by positivity
      linarith

theorem retainPair_prop (xs ys : List ℚ) :
    retainPair xs ys = true ↔
      (0 < varQ xs ∧ 0 < varQ ys ∧
        9 * (varQ xs * varQ ys) < covQ xs ys ^ 2 * 100) := by
  rw [retainPair]
  simp [Bool.and_eq_true, decide_eq_true_eq, and_assoc]

theorem retainPair_iff (xs ys : List ℚ) :
    retainPair xs ys = true ↔ (3 : ℝ) / 10 < |pearson xs ys| := by
  rw [retainPair_prop, pearson]
  rcases eq_or_lt_of_le (varQ_nonneg xs) with hx | hx
  · constructor
    · rintro ⟨h1, -, -⟩
      rw [← hx] at h1
      exact absurd h1 (lt_irrefl 0)
    · intro h
      exfalso
      rw [show ((varQ xs : ℚ) : ℝ) = 0 by rw [← hx]; norm_num,
        Real.sqrt_zero, zero_mul, div_zero, abs_zero] at h
      linarith
  rcases eq_or_lt_of_le (varQ_nonneg ys) with hy | hy
  · constructor
    · rintro ⟨-, h1, -⟩
      rw [← hy] at h1
      exact absurd h1 (lt_irrefl 0)
    · intro h
      exfalso
      rw [show ((varQ ys : ℚ) : ℝ) = 0 by rw [← hy]; norm_num,
        Real.sqrt_zero, mul_zero, div_zero, abs_zero] at h
      linarith
  have hvx : (0:ℝ) < ((varQ xs : ℚ) : ℝ) := by exact_mod_cast hx
  have hvy : (0:ℝ) < ((varQ ys : ℚ) : ℝ) := by exact_mod_cast hy
  have hsx := Real.sqrt_pos.mpr hvx
  have hsy := Real.sqrt_pos.mpr hvy
  have hd : (0:ℝ) < Real.sqrt ((varQ xs : ℚ) : ℝ) *
      Real.sqrt ((varQ ys : ℚ) : ℝ) := mul_pos hsx hsy
  have key : ((3:ℝ)/10 < |((covQ xs ys : ℚ) : ℝ) /
      (Real.sqrt ((varQ xs : ℚ) : ℝ) * Real.sqrt ((varQ ys : ℚ) : ℝ))|) ↔
      9 * (varQ xs * varQ ys) < covQ xs ys ^ 2 * 100 := by
    rw [abs_div, abs_of_pos hd, lt_div_iff₀ hd,
      ← Real.sqrt_sq_eq_abs ((covQ xs ys : ℚ) : ℝ),
      Real.lt_sqrt (by positivity), mul_pow, mul_pow,
      Real.sq_sqrt hvx.le, Real.sq_sqrt hvy.le]
    constructor
    · intro h
      have h9 : (9:ℝ) * (((varQ xs : ℚ):ℝ) * ((varQ ys : ℚ):ℝ)) <
          ((covQ xs ys : ℚ):ℝ) ^ 2 * 100 := by nlinarith
      exact_mod_cast h9
    · intro h
      have h9 : (9:ℝ) * (((varQ xs : ℚ):ℝ) * ((varQ ys : ℚ):ℝ)) <
          ((covQ xs ys : ℚ):ℝ) ^ 2 * 100 := by exact_mod_cast h
      nlinarith
  exact ⟨fun h => key.mpr h.2.2, fun h => ⟨hx, hy, key.mp h⟩⟩

theorem corrForMetric_mem (m : String × List ℚ) (key : String) :
    ∀ ts : List (String × List ℚ),
      (key ∈ corrForMetric m ts ↔
        ∃ t ∈ ts, key = m.1 ++ "_vs_" ++ t.1 ∧ retainPair m.2 t.2 = true) := by
  intro ts
  induction ts with
  | nil => simp [corrForMetric]
  | cons t ts ih =>
      rw [corrForMetric, List.mem_append, ih]
      cases hR : retainPair m.2 t.2 with
      | false =>
          constructor
          · rintro (hin | ⟨u, hu, hk, hr⟩)
            · simp at hin
            · exact ⟨u, List.mem_cons_of_mem _ hu, hk, hr⟩
          · rintro ⟨u, hu, hk, hr⟩
            rcases List.mem_cons.mp hu with rfl | hu
            · rw [hR] at hr
              cases hr
            · exact Or.inr ⟨u, hu, hk, hr⟩
      | true =>
          constructor
          · rintro (hin | ⟨u, hu, hk, hr⟩)
            · simp at hin
              exact ⟨t, List.mem_cons_self _ _, hin, hR⟩
            · exact ⟨u, List.mem_cons_of_mem _ hu, hk, hr⟩
          · rintro ⟨u, hu, hk, hr⟩
            rcases List.mem_cons.mp hu with rfl | hu
            · refine Or.inl ?_
              simpa using hk
            · exact Or.inr ⟨u, hu, hk, hr⟩

theorem corrEntries_mem (key : String) :
    ∀ (ms ts : List (String × List ℚ)),
      (key ∈ corrEntries ms ts ↔
        ∃ m ∈ ms, ∃ t ∈ ts, key = m.1 ++ "_vs_" ++ t.1 ∧
          retainPair m.2 t.2 = true) := by
  intro ms
  induction ms with
  | nil => simp [corrEntries]
  | cons m ms ih =>
      intro ts
      rw [corrEntries]
      rw [List.mem_append, corrForMetric_mem, ih]
      constructor
      · rintro (⟨t, ht, hk, hr⟩ | ⟨u, hu, t, ht, hk, hr⟩)
        · exact ⟨m, List.mem_cons_self _ _, t, ht, hk, hr⟩
        · exact ⟨u, List.mem_cons_of_mem _ hu, t, ht, hk, hr⟩
      · rintro ⟨u, hu, t, ht, hk, hr⟩
        rcases List.mem_cons.mp hu with rfl | hu
        · exact Or.inl ⟨t, ht, hk, hr⟩
        · exact Or.inr ⟨u, hu, t, ht, hk, hr⟩

/-- C8: the Correlation Analyzer on the resampled-and-joined daily table:
with fewer than two overlapping data points the result is empty (not an
error), and otherwise an entry keyed `metric_vs_trend` is present exactly
when the pair was formed from a listed metric and trend whose Pearson
coefficient exceeds 0.3 in absolute value. -/
theorem C8_correlation :
    (∀ (n : ℕ) (ms ts : List (String × List ℚ)), n ≤ 1 →
      correlationAnalysis n ms ts = []) ∧
    (∀ (n : ℕ) (ms ts : List (String × List ℚ)) (key : String), 2 ≤ n →
      (key ∈ correlationAnalysis n ms ts ↔
        ∃ m ∈ ms, ∃ t ∈ ts, key = m.1 ++ "_vs_" ++ t.1 ∧
          (3 : ℝ) / 10 < |pearson m.2 t.2|)) := by
  constructor
  · intro n ms ts h
    rw [correlationAnalysis, if_pos h]
  · intro n ms ts key h
    rw [correlationAnalysis, if_neg (by omega)]
    rw [corrEntries_mem]
    simp only [retainPair_iff]

theorem meanQ_onetwothree : meanQ [1, 2, 3] = 2 := by
  norm_num [meanQ, List.sum_cons, List.sum_nil]

theorem covQ_onetwothree : covQ [1, 2, 3] [1, 2, 3] = 1 := by
  rw [covQ, zip_self, meanQ_onetwothree]
  norm_num [List.map_cons, List.map_nil, List.sum_cons, List.sum_nil]

/-- Concrete instances of C8: one overlapping point yields the empty map;
three perfectly correlated points put the key in the map. -/
theorem C8_correlation_witness :
    correlationAnalysis 1 [("m", [1, 2])] [("t", [1, 2])] = [] ∧
    "m_vs_t" ∈ correlationAnalysis 3 [("m", [1, 2, 3])] [("t", [1, 2, 3])] := by
  constructor
  · exact C8_correlation.1 1 _ _ (by decide)
  · refine (C8_correlation.2 3 _ _ _ (by decide)).mpr ?_
    refine ⟨("m", [1, 2, 3]), by simp, ("t", [1, 2, 3]), by simp, rfl, ?_⟩
    apply (retainPair_iff _ _).mp
    rw [retainPair_prop]
    refine ⟨?_, ?_, ?_⟩ <;>
      rw [show varQ [1, 2, 3] = 1 from by rw [varQ, covQ_onetwothree]] <;>
      try rw [covQ_onetwothree]
    · norm_num
    · norm_num
    · norm_num

/-! ## The unguarded concatenation of line 231 -/

theorem cellText_ok (c : Cell) (h : isTextCell c = true) :
    ∃ s, cellText c = Except.ok s := by
  cases c with
  | str s => exact ⟨s, rfl⟩
  | missing => exact ⟨"", rfl⟩
  | num q => simp [isTextCell] at h
  | dt t => simp [isTextCell] at h

theorem mapExcept_ok {α β : Type} (f : α → Except String β) :
    ∀ l : List α, (∀ x ∈ l, ∃ b, f x = Except.ok b) →
      ∃ bs, mapExcept f l = Except.ok bs := by
  intro l
  induction l with
  | nil => intro _; exact ⟨[], rfl⟩
  | cons x xs ih =>
      intro h
      obtain ⟨b, hb⟩ := h x (List.mem_cons_self _ _)
      obtain ⟨bs, hbs⟩ := ih (fun y hy => h y (List.mem_cons_of_mem _ hy))
      exact ⟨b :: bs, by rw [mapExcept, hb, hbs]⟩

theorem rowDoc_ok (header : List (String × Dtype)) (textCols : List String)
    (r : List Cell)
    (h : ∀ c ∈ textCols,
      isTextCell (r.getD (colIdx header c) Cell.missing) = true) :
    ∃ s, rowDoc header textCols r = Except.ok s := by
  obtain ⟨ss, hss⟩ := mapExcept_ok cellText
    (textCols.map (fun c => r.getD (colIdx header c) Cell.missing))
    (by
      intro x hx
      rcases List.mem_map.mp hx with ⟨c, hc, rfl⟩
      exact cellText_ok _ (h c hc))
  exact ⟨String.intercalate " " ss, by rw [rowDoc, hss]⟩

theorem getD_text (r : List Cell) (i : ℕ)
    (h : ∀ c ∈ r, isTextCell c = true) :
    isTextCell (r.getD i Cell.missing) = true := by
  by_cases hi : i < r.length
  · rw [List.getD_eq_getElem?_getD, List.getElem?_eq_getElem hi]
    exact h _ (List.getElem_mem hi)
  · rw [List.getD_eq_getElem?_getD, List.getElem?_eq_none (le_of_not_lt hi)]
    rfl

theorem combineTextStage_ok (textCols : List String) (df : DF)
    (h : ∀ r ∈ df.rows, ∀ c ∈ textCols,
      isTextCell (r.getD (colIdx df.header c) Cell.missing) = true) :
    ∃ ds, combineTextStage textCols df = Except.ok ds := by
  by_cases he : textCols.isEmpty
  · exact ⟨[], by rw [combineTextStage, if_pos he]⟩
  · obtain ⟨ds, hds⟩ := mapExcept_ok (rowDoc df.header textCols) df.rows
      (fun r hr => rowDoc_ok df.header textCols r (h r hr))
    exact ⟨ds, by rw [combineTextStage, if_neg he]; exact hds⟩

theorem combineTextStage_ok_strings (textCols : List String) (df : DF)
    (h : ∀ r ∈ df.rows, ∀ c ∈ r, isTextCell c = true) :
    ∃ ds, combineTextStage textCols df = Except.ok ds :=
  combineTextStage_ok textCols df
    (fun r hr _ _ => getD_text r _ (h r hr))

/-! ## Orchestrator lemmas -/

theorem pw_ok_eq (applied : Bool) (df : DF) (a : AnalysisEnv) (i p : Bool) :
    processWith true applied true (Except.ok df) a i p =
      match combineTextStage (colsOfType "text" (summaryOf a (clean df)))
          (clean df) with
      | Except.error ty =>
          concatFatal applied a (clean df) (summaryOf a (clean df)) ty p
      | Except.ok _docs =>
          afterConcat applied a (clean df) (summaryOf a (clean df)) i p := rfl

theorem pw_ok_of_concat_ok (applied : Bool) (df : DF) (a : AnalysisEnv)
    (i p : Bool) (ds : List String)
    (h : combineTextStage (colsOfType "text" (summaryOf a (clean df)))
      (clean df) = Except.ok ds) :
    processWith true applied true (Except.ok df) a i p =
      afterConcat applied a (clean df) (summaryOf a (clean df)) i p := by
  rw [pw_ok_eq, h]

theorem pw_ok_of_concat_error (applied : Bool) (df : DF) (a : AnalysisEnv)
    (i p : Bool) (ty : String)
    (h : combineTextStage (colsOfType "text" (summaryOf a (clean df)))
      (clean df) = Except.error ty) :
    processWith true applied true (Except.ok df) a i p =
      concatFatal applied a (clean df) (summaryOf a (clean df)) ty p := by
  rw [pw_ok_eq, h]

theorem pw_completed_status (applied : Bool) (df : DF) (a : AnalysisEnv)
    (p : Bool) (ds : List String)
    (h : combineTextStage (colsOfType "text" (summaryOf a (clean df)))
      (clean df) = Except.ok ds) :
    (processWith true applied true (Except.ok df) a false p).finalStatus =
      "completed" := by
  rw [pw_ok_of_concat_ok applied df a false p ds h]
  rfl

theorem pw_completed_payload (applied : Bool) (df : DF) (a : AnalysisEnv)
    (p : Bool) (ds : List String)
    (h : combineTextStage (colsOfType "text" (summaryOf a (clean df)))
      (clean df) = Except.ok ds) :
    (processWith true applied true (Except.ok df) a false p).payload =
      completedPayload a df := by
  rw [pw_ok_of_concat_ok applied df a false p ds h]
  rfl

theorem runAnalyses_summary (a : AnalysisEnv) (df : DF)
    (s : List (String × ColProfile)) :
    (runAnalyses a df s).1.summary_statistics = some s := rfl

theorem processWith_applied (s f : Bool) (r : Except String DF)
    (a : AnalysisEnv) (i p ap1 ap2 : Bool) :
    (processWith s ap1 f r a i p).finalStatus =
        (processWith s ap2 f r a i p).finalStatus ∧
      (processWith s ap1 f r a i p).payload =
        (processWith s ap2 f r a i p).payload := by
  cases s with
  | false => exact ⟨rfl, rfl⟩
  | true =>
      cases f with
      | false => exact ⟨rfl, rfl⟩
      | true =>
          cases r with
          | error e => exact ⟨rfl, rfl⟩
          | ok df =>
              cases hc : combineTextStage (colsOfType "text"
                  (summaryOf a (clean df))) (clean df) with
              | error ty =>
                  rw [pw_ok_of_concat_error ap1 df a i p ty hc,
                    pw_ok_of_concat_error ap2 df a i p ty hc]
                  exact ⟨rfl, rfl⟩
              | ok ds =>
                  rw [pw_ok_of_concat_ok ap1 df a i p ds hc,
                    pw_ok_of_concat_ok ap2 df a i p ds hc]
                  cases i <;> exact ⟨rfl, rfl⟩

theorem processWith_pins (s ap f : Bool) (r : Except String DF)
    (a : AnalysisEnv) (i p1 p2 : Bool) :
    (processWith s ap f r a i p1).finalStatus =
        (processWith s ap f r a i p2).finalStatus ∧
      (processWith s ap f r a i p1).payload =
        (processWith s ap f r a i p2).payload := by
  cases s with
  | false => exact ⟨rfl, rfl⟩
  | true =>
      cases f with
      | false => exact ⟨rfl, rfl⟩
      | true =>
          cases r with
          | error e => exact ⟨rfl, rfl⟩
          | ok df =>
              cases hc : combineTextStage (colsOfType "text"
                  (summaryOf a (clean df))) (clean df) with
              | error ty =>
                  rw [pw_ok_of_concat_error ap df a i p1 ty hc,
                    pw_ok_of_concat_error ap df a i p2 ty hc]
                  exact ⟨rfl, rfl⟩
              | ok ds =>
                  rw [pw_ok_of_concat_ok ap df a i p1 ds hc,
                    pw_ok_of_concat_ok ap df a i p2 ds hc]
                  cases i <;> exact ⟨rfl, rfl⟩

theorem finishFailed_payload (s ap : Bool) (p0 : Payload) (errs : List String)
    (reason : String) (ev : List Event) (pi : Bool) :
    (finishFailed s ap p0 errs reason ev pi).payload =
      failedPayload p0 errs reason := rfl

theorem summaryTruthy_failedPayload (p0 : Payload) (errs : List String)
    (reason : String) :
    summaryTruthy (failedPayload p0 errs reason) = summaryTruthy p0 := rfl

theorem finishFailed_status (s ap : Bool) (p0 : Payload) (errs : List String)
    (reason : String) (ev : List Event) (pi : Bool) :
    (finishFailed s ap p0 errs reason ev pi).finalStatus = "failed" := rfl

theorem finishFailed_events (s ap : Bool) (p0 : Payload) (errs : List String)
    (reason : String) (ev : List Event) (pi : Bool) :
    (finishFailed s ap p0 errs reason ev pi).events =
      (if (s && summaryTruthy (finishFailed s ap p0 errs reason ev pi).payload) =
          true
        then (ev ++ [Event.statusUpdate "failed" ap]) ++
          [Event.partialInsert (!pi)]
        else ev ++ [Event.statusUpdate "failed" ap]) := rfl

theorem finishFailed_partial_iff (s ap : Bool) (p0 : Payload)
    (errs : List String) (reason : String) (ev : List Event) (pi : Bool)
    (hev : ∀ b, Event.partialInsert b ∉ ev) :
    ((∃ b, Event.partialInsert b ∈ (finishFailed s ap p0 errs reason ev pi).events) ↔
      (s && summaryTruthy (finishFailed s ap p0 errs reason ev pi).payload) =
        true) := by
  rw [finishFailed_events]
  by_cases hc : (s &&
      summaryTruthy (finishFailed s ap p0 errs reason ev pi).payload) = true
  · rw [if_pos hc]
    simp only [hc, iff_true]
    exact ⟨!pi, by simp⟩
  · rw [if_neg hc]
    constructor
    · rintro ⟨b, hb⟩
      rcases List.mem_append.mp hb with hb | hb
      · exact absurd hb (hev b)
      · simp at hb
    · intro h
      exact absurd h hc

theorem finishFailed_order (s ap : Bool) (p0 : Payload) (errs : List String)
    (reason : String) (ev : List Event) (pi : Bool)
    (hev : ∀ b, Event.partialInsert b ∉ ev) :
    (∃ b, Event.partialInsert b ∈ (finishFailed s ap p0 errs reason ev pi).events) →
      ∃ pre a2 b, (finishFailed s ap p0 errs reason ev pi).events =
        pre ++ [Event.statusUpdate "failed" a2, Event.partialInsert b] := by
  intro hex
  have hc := (finishFailed_partial_iff s ap p0 errs reason ev pi hev).mp hex
  rw [finishFailed_events, if_pos hc]
  refine ⟨ev, ap, !pi, ?_⟩
  rw [List.append_assoc]
  rfl

theorem summaryTruthy_payloadInit : summaryTruthy ({} : Payload) = false := rfl

theorem pw_partial_iff (s ap f : Bool) (r : Except String DF) (a : AnalysisEnv)
    (i pi : Bool)
    (h : (processWith s ap f r a i pi).finalStatus = "failed") :
    ((∃ b, Event.partialInsert b ∈ (processWith s ap f r a i pi).events) ↔
      summaryTruthy (processWith s ap f r a i pi).payload = true) := by
  cases s with
  | false =>
      rw [show processWith false ap f r a i pi = finishFailed false ap {} []
        "Supabase client not initialized. Cannot proceed." [] pi from rfl]
      rw [finishFailed_partial_iff _ _ _ _ _ _ _ (fun b hb => by cases hb),
        finishFailed_payload, summaryTruthy_failedPayload,
        summaryTruthy_payloadInit]
      simp
  | true =>
      cases f with
      | false =>
          rw [show processWith true ap false r a i pi = finishFailed true ap {}
            [] "Temporary file does not exist"
            [Event.statusUpdate "processing" ap] pi from rfl]
          rw [finishFailed_partial_iff _ _ _ _ _ _ _
              (fun b hb => by simp at hb),
            finishFailed_payload, summaryTruthy_failedPayload,
            summaryTruthy_payloadInit]
          simp
      | true =>
          cases r with
          | error e =>
              rw [show processWith true ap true (Except.error e) a i pi =
                finishFailed true ap {} [] e
                  [Event.statusUpdate "processing" ap] pi from rfl]
              rw [finishFailed_partial_iff _ _ _ _ _ _ _
                  (fun b hb => by simp at hb),
                finishFailed_payload, summaryTruthy_failedPayload,
                summaryTruthy_payloadInit]
              simp
          | ok df =>
              cases hc : combineTextStage (colsOfType "text"
                  (summaryOf a (clean df))) (clean df) with
              | error ty =>
                  rw [pw_ok_of_concat_error ap df a i pi ty hc]
                  rw [show concatFatal ap a (clean df) (summaryOf a (clean df))
                      ty pi =
                    finishFailed true ap
                      { summary_statistics := some (summaryOf a (clean df)) }
                      (statsErrors a.statsErr (clean df).header)
                      ("Unexpected error during processing: " ++ ty)
                      [Event.statusUpdate "processing" ap] pi from rfl]
                  rw [finishFailed_partial_iff _ _ _ _ _ _ _
                    (fun b hb => by simp at hb)]
                  simp
              | ok ds =>
                  rw [pw_ok_of_concat_ok ap df a i pi ds hc] at h ⊢
                  cases i with
                  | false =>
                      rw [show (afterConcat ap a (clean df)
                          (summaryOf a (clean df)) false pi).finalStatus =
                        "completed" from rfl] at h
                      exact absurd h (by decide)
                  | true =>
                      rw [show afterConcat ap a (clean df)
                          (summaryOf a (clean df)) true pi =
                        finishFailed true ap (completedPayload a df)
                          (runAnalyses a (clean df)
                            (summaryOf a (clean df))).2
                          "Unexpected error during processing: Exception"
                          [Event.statusUpdate "processing" ap,
                            Event.resultInsert (!true)] pi from rfl]
                      rw [finishFailed_partial_iff _ _ _ _ _ _ _
                        (fun b hb => by simp at hb)]
                      simp

theorem pw_no_inserts (s ap f : Bool) (r : Except String DF) (a : AnalysisEnv)
    (i pi : Bool)
    (h : s = false ∨ f = false ∨ ∃ e, r = Except.error e) :
    (processWith s ap f r a i pi).events.filter isInsertEvent = [] := by
  rcases h with rfl | rfl | ⟨e, rfl⟩
  · rw [show processWith false ap f r a i pi = finishFailed false ap {} []
      "Supabase client not initialized. Cannot proceed." [] pi from rfl,
      finishFailed_events]
    rw [finishFailed_payload, summaryTruthy_failedPayload,
      summaryTruthy_payloadInit]
    simp [isInsertEvent]
  · cases s with
    | false =>
        rw [show processWith false ap false r a i pi = finishFailed false ap {}
          [] "Supabase client not initialized. Cannot proceed." [] pi from rfl,
          finishFailed_events]
        rw [finishFailed_payload, summaryTruthy_failedPayload,
          summaryTruthy_payloadInit]
        simp [isInsertEvent]
    | true =>
        rw [show processWith true ap false r a i pi = finishFailed true ap {}
          [] "Temporary file does not exist"
          [Event.statusUpdate "processing" ap] pi from rfl,
          finishFailed_events]
        rw [finishFailed_payload, summaryTruthy_failedPayload,
          summaryTruthy_payloadInit]
        simp [isInsertEvent]
  · cases s with
    | false =>
        rw [show processWith false ap f (Except.error e) a i pi =
          finishFailed false ap {} []
            "Supabase client not initialized. Cannot proceed." [] pi from rfl,
          finishFailed_events]
        rw [finishFailed_payload, summaryTruthy_failedPayload,
          summaryTruthy_payloadInit]
        simp [isInsertEvent]
    | true =>
        cases f with
        | false =>
            rw [show processWith true ap false (Except.error e) a i pi =
              finishFailed true ap {} [] "Temporary file does not exist"
                [Event.statusUpdate "processing" ap] pi from rfl,
              finishFailed_events]
            rw [finishFailed_payload, summaryTruthy_failedPayload,
              summaryTruthy_payloadInit]
            simp [isInsertEvent]
        | true =>
            rw [show processWith true ap true (Except.error e) a i pi =
              finishFailed true ap {} [] e
                [Event.statusUpdate "processing" ap] pi from rfl,
              finishFailed_events]
            rw [finishFailed_payload, summaryTruthy_failedPayload,
              summaryTruthy_payloadInit]
            simp [isInsertEvent]

theorem pw_order (s ap f : Bool) (r : Except String DF) (a : AnalysisEnv)
    (i pi : Bool) :
    (∃ b, Event.partialInsert b ∈ (processWith s ap f r a i pi).events) →
      ∃ pre a2 b, (processWith s ap f r a i pi).events =
        pre ++ [Event.statusUpdate "failed" a2, Event.partialInsert b] := by
  cases s with
  | false =>
      exact finishFailed_order _ _ _ _ _ _ _ (fun b hb => by cases hb)
  | true =>
      cases f with
      | false =>
          exact finishFailed_order _ _ _ _ _ _ _ (fun b hb => by simp at hb)
      | true =>
          cases r with
          | error e =>
              exact finishFailed_order _ _ _ _ _ _ _ (fun b hb => by simp at hb)
          | ok df =>
              cases hc : combineTextStage (colsOfType "text"
                  (summaryOf a (clean df))) (clean df) with
              | error ty =>
                  rw [pw_ok_of_concat_error ap df a i pi ty hc,
                    show concatFatal ap a (clean df) (summaryOf a (clean df))
                      ty pi =
                    finishFailed true ap
                      { summary_statistics := some (summaryOf a (clean df)) }
                      (statsErrors a.statsErr (clean df).header)
                      ("Unexpected error during processing: " ++ ty)
                      [Event.statusUpdate "processing" ap] pi from rfl]
                  exact finishFailed_order _ _ _ _ _ _ _
                    (fun b hb => by simp at hb)
              | ok ds =>
                  rw [pw_ok_of_concat_ok ap df a i pi ds hc]
                  cases i with
                  | false =>
                      rintro ⟨b, hb⟩
                      rw [show (afterConcat ap a (clean df)
                          (summaryOf a (clean df)) false pi).events =
                        [Event.statusUpdate "processing" ap,
                          Event.resultInsert true,
                          Event.statusUpdate "completed" ap] from rfl] at hb
                      simp at hb
                  | true =>
                      rw [show afterConcat ap a (clean df)
                          (summaryOf a (clean df)) true pi =
                        finishFailed true ap (completedPayload a df)
                          (runAnalyses a (clean df)
                            (summaryOf a (clean df))).2
                          "Unexpected error during processing: Exception"
                          [Event.statusUpdate "processing" ap,
                            Event.resultInsert (!true)] pi from rfl]
                      exact finishFailed_order _ _ _ _ _ _ _
                        (fun b hb => by simp at hb)

/-! ## C1: MIME sniffing -/

/-- C1 evaluation at the failing input: a job whose uploaded file is named
`.csv` but whose bytes are plain unstructured text (sniffed MIME type
`text/plain`).  The worker binds the `magic.from_file` result and never
reads it, dispatches on the extension alone, parses the text as a
one-column CSV and the job completes - contrary to the claim (and to the
repository's own `test_upload_invalid_content_type_using_magic`), no
unsupported-file-type failure occurs; indeed the whole job result is
invariant under the sniffed MIME type. -/
theorem C1_mime_sniff_ignored :
    envPlainText.ext = ".csv" ∧
    envPlainText.mime = "text/plain" ∧
    (process envPlainText).finalStatus = "completed" ∧
    ∀ m : String, process { envPlainText with mime := m } = process envPlainText := by
  refine ⟨rfl, rfl, ?_, fun m => rfl⟩
  obtain ⟨ds, hok⟩ := combineTextStage_ok_strings
    (colsOfType "text" (summaryOf benignAnalysis (clean dfPlainText)))
    (clean dfPlainText) (by decide)
  rw [show process envPlainText = processWith true (applyOk true false) true
      (readFile envPlainText) benignAnalysis false false from rfl,
    show readFile envPlainText = Except.ok dfPlainText from rfl]
  exact pw_completed_status _ _ _ _ ds hok

/-! ## C2: sentiment aggregation -/

/-- C2 counterexample: on the scenario-4 dataset (one text column repeating
"great fantastic excellent", classifier output POSITIVE at 0.999) the job
completes, but the persisted overall label is the lower-case dictionary key
"positive" - `max(average, key=average.get)` returns a key of the
`average` dict - and can never equal the claimed "POSITIVE". -/
theorem C2_scenario_label_counterexample :
    (process envGreat).finalStatus = "completed" ∧
    (process envGreat).payload.sentiment_scores =
      some (SentPayload.scores (999 / 1000) 0 "positive") ∧
    ∀ p n : ℚ, (process envGreat).payload.sentiment_scores ≠
      some (SentPayload.scores p n "POSITIVE") := by
  obtain ⟨ds, hok⟩ := combineTextStage_ok_strings
    (colsOfType "text" (summaryOf envGreat.analysis (clean dfGreat)))
    (clean dfGreat) (by decide)
  have hst : (process envGreat).finalStatus = "completed" := by
    rw [show process envGreat = processWith true (applyOk true false) true
        (readFile envGreat) envGreat.analysis false false from rfl,
      show readFile envGreat = Except.ok dfGreat from rfl]
    exact pw_completed_status _ _ _ _ ds hok
  have hcl : clean dfGreat =
      DF.mk [("feedback", Dtype.obj)] [[Cell.str "great fantastic excellent"]] := by
    rw [show clean dfGreat = DF.mk dfGreat.header (clean dfGreat).rows from rfl,
      show (clean dfGreat).rows = [[Cell.str "great fantastic excellent"]] from
        by decide]
    rfl
  have hpay : (process envGreat).payload =
      completedPayload envGreat.analysis dfGreat := by
    rw [show process envGreat = processWith true (applyOk true false) true
        (readFile envGreat) envGreat.analysis false false from rfl,
      show readFile envGreat = Except.ok dfGreat from rfl]
    exact pw_completed_payload _ _ _ _ ds hok
  have hsent : (process envGreat).payload.sentiment_scores =
      some (SentPayload.scores (999 / 1000) 0 "positive") := by
    rw [hpay,
      show (completedPayload envGreat.analysis dfGreat).sentiment_scores =
        (runAnalyses envGreat.analysis (clean dfGreat)
          (summaryOf envGreat.analysis (clean dfGreat))).1.sentiment_scores from
        rfl, hcl]
    norm_num +decide [runAnalyses, summaryOf, profileColumns, profileColumn,
      colsOfType, envGreat, benignAnalysis, baseEnv, colCells, nonMissingCells,
      dedupFirst, dedupFirstAux, aggregateSentiment, List.sum_cons, List.sum_nil]
  refine ⟨hst, hsent, ?_⟩
  intro p n hcontra
  rw [hsent] at hcontra
  have h2 := Option.some.inj hcontra
  injection h2 with h3 h4 h5
  exact absurd h5 (by decide)

/-- C2 amended: the aggregation averages the POSITIVE-labelled scores and
the NEGATIVE-labelled scores separately over the document count; the
overall label is the lower-case key of the larger average - "positive" or
"negative", with ties going to "positive" - not the upper-case classifier
label; an empty document list yields zero averages and "NEUTRAL". -/
theorem C2_sentiment_aggregation_amended :
    (∀ ss : List Sentiment, ss ≠ [] →
      aggregateSentiment ss = SentPayload.scores
        (((ss.filter (fun s => s.label = "POSITIVE")).map
          (fun s => s.score)).sum / (ss.length : ℚ))
        (((ss.filter (fun s => s.label = "NEGATIVE")).map
          (fun s => s.score)).sum / (ss.length : ℚ))
        (if ((ss.filter (fun s => s.label = "POSITIVE")).map
              (fun s => s.score)).sum / (ss.length : ℚ) <
            ((ss.filter (fun s => s.label = "NEGATIVE")).map
              (fun s => s.score)).sum / (ss.length : ℚ)
          then "negative" else "positive")) ∧
    aggregateSentiment [] = SentPayload.scores 0 0 "NEUTRAL" := by
  constructor
  · intro ss h
    simp only [aggregateSentiment]
    rw [if_pos (List.length_pos.mpr h)]
  · rfl

/-- Concrete instance of the amended C2: one POSITIVE document of score 1
averages to (1, 0) and the lower-case label "positive". -/
theorem C2_sentiment_aggregation_witness :
    aggregateSentiment [{ label := "POSITIVE", score := 1 }] =
      SentPayload.scores 1 0 "positive" := by
  rw [C2_sentiment_aggregation_amended.1 [{ label := "POSITIVE", score := 1 }]
    (by simp)]
  norm_num +decide [List.filter, List.sum_cons, List.sum_nil]

/-! ## C3: the status-update failure mode -/

/-- C3 counterexample: in a job whose every durable status update raises
inside the store client, the exception is swallowed by
`update_upload_status` (its own `except` clause only logs), processing
continues through every analysis stage and the job completes - the
transition failure is not fatal and does not abort the job. -/
theorem C3_status_update_failure_counterexample :
    envUpdateFails.statusUpdateErr = true ∧
    (process envUpdateFails).finalStatus = "completed" ∧
    (process envUpdateFails).payload.summary_statistics ≠ none := by
  have hok : combineTextStage
      (colsOfType "text" (summaryOf benignAnalysis (clean dfSimple)))
      (clean dfSimple) = Except.ok [] := rfl
  refine ⟨rfl, ?_, ?_⟩
  · rw [show process envUpdateFails = processWith true (applyOk true true) true
        (readFile envUpdateFails) benignAnalysis false false from rfl,
      show readFile envUpdateFails = Except.ok dfSimple from rfl]
    exact pw_completed_status _ _ _ _ [] hok
  · rw [show process envUpdateFails = processWith true (applyOk true true) true
        (readFile envUpdateFails) benignAnalysis false false from rfl,
      show readFile envUpdateFails = Except.ok dfSimple from rfl,
      pw_completed_payload _ _ _ _ [] hok,
      show (completedPayload benignAnalysis dfSimple).summary_statistics =
        (runAnalyses benignAnalysis (clean dfSimple)
          (summaryOf benignAnalysis (clean dfSimple))).1.summary_statistics from
        rfl, runAnalyses_summary]
    simp

/-- C3 amended: only an uninitialized store client aborts the job before
any stage runs (the `ConnectionError` raised at step 0, leaving the
summary unpopulated and the recorded reason naming the client); an
exception raised by the status-update call itself is caught inside
`update_upload_status`, so the job status and payload are the same whether
or not the update call fails. -/
theorem C3_status_update_amended (env : Env) :
    (env.supabaseOk = false →
      (process env).finalStatus = "failed" ∧
      (process env).payload.summary_statistics = none ∧
      (process env).errorReason =
        some "Supabase client not initialized. Cannot proceed.") ∧
    ((process { env with statusUpdateErr := true }).finalStatus =
        (process { env with statusUpdateErr := false }).finalStatus ∧
      (process { env with statusUpdateErr := true }).payload =
        (process { env with statusUpdateErr := false }).payload) := by
  constructor
  · intro h
    rw [show process env = processWith env.supabaseOk
        (applyOk env.supabaseOk env.statusUpdateErr) env.fileExists
        (readFile env) env.analysis env.insertErr env.partialInsertErr from rfl,
      h]
    exact ⟨rfl, rfl, rfl⟩
  · exact processWith_applied env.supabaseOk env.fileExists (readFile env)
      env.analysis env.insertErr env.partialInsertErr
      (applyOk env.supabaseOk true) (applyOk env.supabaseOk false)

/-- Concrete instance of the amended C3: with the client uninitialized the
job fails before any stage runs. -/
theorem C3_status_update_witness :
    (process envNoStore).finalStatus = "failed" ∧
    (process envNoStore).payload.summary_statistics = none :=
  ⟨((C3_status_update_amended envNoStore).1 rfl).1,
    ((C3_status_update_amended envNoStore).1 rfl).2.1⟩

/-! ## C4: non-fatal stage errors never change the outcome -/

/-- C4: the guarded analysis stages are indeed non-fatal - the job in which
the stats of one column, keyword extraction, sentiment, the time series of
the numeric column and the correlation stage all raise still completes,
with the correlation error in the persisted error list.  But the
text-column concatenation `df[text_columns].fillna('').agg(' '.join,
axis=1)` of `worker.py` line 231 sits OUTSIDE every `try`: on a dataset
whose text-classified object column holds one non-string cell, the
`' '.join` raises `TypeError`, only the generic handler catches it, and the
job ends `failed` with the `TypeError` as its fatal reason even though the
summary was already computed - an analysis-stage error that does change
the final outcome, contrary to the claim and to spec §4.4/§7. -/
theorem C4_text_concat_fatal :
    ((process envAllStagesFail).finalStatus = "completed" ∧
      "CorrelationError: corr boom" ∈
        ((process envAllStagesFail).payload.processing_errors.getD [])) ∧
    ((process envMixedText).finalStatus = "failed" ∧
      (process envMixedText).errorReason =
        some "Unexpected error during processing: TypeError" ∧
      (process envMixedText).payload.summary_statistics ≠ none) := by
  have hcl : clean dfFour = dfFour := by
    rw [show clean dfFour = DF.mk dfFour.header (clean dfFour).rows from rfl,
      show (clean dfFour).rows = dfFour.rows from by decide]
  have hcols : colsOfType "text"
      (summaryOf envAllStagesFail.analysis dfFour) = ["note"] := by
    norm_num +decide [summaryOf, profileColumns, profileColumn, colsOfType,
      dfFour, envAllStagesFail, benignAnalysis, baseEnv, statsErrors, colCells,
      nonMissingCells, dedupFirst, dedupFirstAux, numsOf]
  obtain ⟨ds, hds⟩ := combineTextStage_ok ["note"] dfFour (by decide)
  have hok : combineTextStage (colsOfType "text"
      (summaryOf envAllStagesFail.analysis (clean dfFour)))
      (clean dfFour) = Except.ok ds := by
    rw [hcl, hcols]; exact hds
  have hstA : (process envAllStagesFail).finalStatus = "completed" := by
    rw [show process envAllStagesFail = processWith true (applyOk true false)
        true (readFile envAllStagesFail) envAllStagesFail.analysis false false
        from rfl,
      show readFile envAllStagesFail = Except.ok dfFour from rfl]
    exact pw_completed_status _ _ _ _ ds hok
  have hpayA : (process envAllStagesFail).payload =
      completedPayload envAllStagesFail.analysis dfFour := by
    rw [show process envAllStagesFail = processWith true (applyOk true false)
        true (readFile envAllStagesFail) envAllStagesFail.analysis false false
        from rfl,
      show readFile envAllStagesFail = Except.ok dfFour from rfl]
    exact pw_completed_payload _ _ _ _ ds hok
  have hmem : "CorrelationError: corr boom" ∈
      (runAnalyses envAllStagesFail.analysis (clean dfFour)
        (summaryOf envAllStagesFail.analysis (clean dfFour))).2 := by
    rw [hcl]
    norm_num +decide [runAnalyses, summaryOf, profileColumns, profileColumn,
      colsOfType, dfFour, envAllStagesFail, benignAnalysis, baseEnv,
      statsErrors, colCells, nonMissingCells, dedupFirst, dedupFirstAux,
      numsOf]
  have hne : ¬ ((runAnalyses envAllStagesFail.analysis (clean dfFour)
      (summaryOf envAllStagesFail.analysis (clean dfFour))).2.isEmpty = true) := by
    intro hE
    rw [List.isEmpty_iff] at hE
    rw [hE] at hmem
    cases hmem
  have hpe : (completedPayload envAllStagesFail.analysis
      dfFour).processing_errors =
      some (runAnalyses envAllStagesFail.analysis (clean dfFour)
        (summaryOf envAllStagesFail.analysis (clean dfFour))).2 := by
    show (if (runAnalyses envAllStagesFail.analysis (clean dfFour)
        (summaryOf envAllStagesFail.analysis (clean dfFour))).2.isEmpty
      then none
      else some (runAnalyses envAllStagesFail.analysis (clean dfFour)
        (summaryOf envAllStagesFail.analysis (clean dfFour))).2) =
      some (runAnalyses envAllStagesFail.analysis (clean dfFour)
        (summaryOf envAllStagesFail.analysis (clean dfFour))).2
    rw [if_neg hne]
  have hclM : clean dfMixedText = dfMixedText := by
    rw [show clean dfMixedText =
        DF.mk dfMixedText.header (clean dfMixedText).rows from rfl,
      show (clean dfMixedText).rows = dfMixedText.rows from by decide]
  have hcolsM : colsOfType "text"
      (summaryOf benignAnalysis dfMixedText) = ["mixed"] := by
    norm_num +decide [summaryOf, profileColumns, profileColumn, colsOfType,
      dfMixedText, benignAnalysis, colCells, nonMissingCells, dedupFirst,
      dedupFirstAux]
  have herr : combineTextStage ["mixed"] dfMixedText =
      Except.error "TypeError" := rfl
  have hokM : combineTextStage (colsOfType "text"
      (summaryOf benignAnalysis (clean dfMixedText)))
      (clean dfMixedText) = Except.error "TypeError" := by
    rw [hclM, hcolsM]; exact herr
  have hpwM : process envMixedText = concatFatal (applyOk true false)
      benignAnalysis (clean dfMixedText)
      (summaryOf benignAnalysis (clean dfMixedText)) "TypeError" false := by
    rw [show process envMixedText = processWith true (applyOk true false) true
        (readFile envMixedText) benignAnalysis false false from rfl,
      show readFile envMixedText = Except.ok dfMixedText from rfl]
    exact pw_ok_of_concat_error _ _ _ _ _ _ hokM
  refine ⟨⟨hstA, ?_⟩, ?_, ?_, ?_⟩
  · rw [hpayA, hpe]
    simp only [Option.getD_some]
    exact hmem
  · rw [hpwM]
    rfl
  · rw [hpwM]
    rfl
  · rw [hpwM,
      show (concatFatal (applyOk true false) benignAnalysis (clean dfMixedText)
        (summaryOf benignAnalysis (clean dfMixedText)) "TypeError"
        false).payload.summary_statistics =
      some (summaryOf benignAnalysis (clean dfMixedText)) from rfl]
    simp

/-! ## C10: the failure-path partial insert -/

/-- C10: on a failed job the partial AnalysisResult insert happens exactly
when `summary_statistics` was populated (truthy) at failure time; fatal
failures before profiling (missing client, missing file, reader error)
produce no insert event at all; every partial insert is immediately
preceded by the `failed` status-update call; and a failure of the partial
insert itself never changes the job's final status. -/
theorem C10_partial_insert (env : Env) :
    ((process env).finalStatus = "failed" →
      ((∃ b, Event.partialInsert b ∈ (process env).events) ↔
        summaryTruthy (process env).payload = true)) ∧
    (env.supabaseOk = false ∨ env.fileExists = false ∨
        (∃ e, readFile env = Except.error e) →
      (process env).events.filter isInsertEvent = []) ∧
    ((∃ b, Event.partialInsert b ∈ (process env).events) →
      ∃ pre a2 b, (process env).events =
        pre ++ [Event.statusUpdate "failed" a2, Event.partialInsert b]) ∧
    (∀ b, (process { env with partialInsertErr := b }).finalStatus =
      (process env).finalStatus) := by
  refine ⟨?_, ?_, ?_, ?_⟩
  · exact pw_partial_iff env.supabaseOk
      (applyOk env.supabaseOk env.statusUpdateErr) env.fileExists
      (readFile env) env.analysis env.insertErr env.partialInsertErr
  · exact pw_no_inserts env.supabaseOk
      (applyOk env.supabaseOk env.statusUpdateErr) env.fileExists
      (readFile env) env.analysis env.insertErr env.partialInsertErr
  · exact pw_order env.supabaseOk
      (applyOk env.supabaseOk env.statusUpdateErr) env.fileExists
      (readFile env) env.analysis env.insertErr env.partialInsertErr
  · intro b
    exact (processWith_pins env.supabaseOk
      (applyOk env.supabaseOk env.statusUpdateErr) env.fileExists
      (readFile env) env.analysis env.insertErr b env.partialInsertErr).1

/-- Concrete instances of C10: a job failing at the final insert records
`failed` and its partial-insert behaviour matches the populated summary;
a job whose file is missing produces no insert events. -/
theorem C10_partial_insert_witness :
    (process envInsertFails).finalStatus = "failed" ∧
    ((∃ b, Event.partialInsert b ∈ (process envInsertFails).events) ↔
      summaryTruthy (process envInsertFails).payload = true) ∧
    (process envNoFile).events.filter isInsertEvent = [] := by
  have hst : (process envInsertFails).finalStatus = "failed" := by
    rw [show process envInsertFails = processWith true (applyOk true false) true
        (readFile envInsertFails) benignAnalysis true false from rfl,
      show readFile envInsertFails = Except.ok dfSimple from rfl]
    rfl
  exact ⟨hst, (C10_partial_insert envInsertFails).1 hst,
    (C10_partial_insert envNoFile).2.1 (Or.inr (Or.inl rfl))⟩

/-! ## C6 witness -/

/-- Concrete instance of the amended C6: on `dfC6`, column "a" (numeric,
with the present values 1, 3, 2) has no missing cell after cleaning. -/
theorem C6_cleaner_witness :
    ∀ c ∈ colCells (clean dfC6).rows 0, c ≠ Cell.missing := by
  refine C6_cleaner_amended.2.1 dfC6 0 ?_ ?_ ?_ ?_
  · decide
  · decide
  · decide
  · decide

end Insightflow
